import Mathlib

/-!
Verification development for the mcp-research-powerpack repository.

The repository exposes five research tools (web_search, scrape_links,
deep_research, search_reddit, get_reddit_post) behind a uniform protocol.
This file gives a shallow embedding of the tool handlers and the pure
helpers they use, and proves the stated properties about them.

External HTTP services (Serper, Scrape.do, OpenRouter, Reddit) and the
third-party Turndown library are modelled as oracle values/functions: each
handler is a total Lean function of its parameters and an oracle describing
the outcome of every external call.  A call that may throw in TypeScript is
an `Except ApiErr` oracle value bound inside the embedding, so an uncaught
failure would surface as `Except.error` of the whole handler.
-/

namespace ResearchPowerpack

-- ============================================================================
-- Errors (modelled from src/utils/errors.ts call sites; the module itself is
-- not in the provided sources)
-- ============================================================================

/-- Classification of an external-API failure. -/
inductive ApiErrKind
  | network
  | rateLimit
  | auth
  | timeout
  | http (status : Int)
  | unknown
deriving DecidableEq

/-- A failure raised by an external call (the value a TypeScript `catch`
receives, already carrying the information `classifyError` extracts). -/
structure ApiErr where
  kind : ApiErrKind := ApiErrKind.unknown
  message : String := ""
  retryable : Bool := false
deriving DecidableEq

/-- Error codes appearing in the tool handlers.  Validation and init codes are
string literals in the source; `classified k` stands for the code that
`classifyError` derives from an external failure (an API-failure code, never
one of the validation codes). -/
inductive ErrCode
  | MIN_QUESTIONS
  | MAX_QUESTIONS
  | MIN_POSTS
  | MAX_POSTS
  | NO_URLS
  | INVALID_URLS
  | CLIENT_INIT_FAILED
  | NO_RESULTS
  | classified (k : ApiErrKind)
deriving DecidableEq

/-- Result of `classifyError` (src/utils/errors.ts, not in the provided
sources).  Modelled from the spec: it turns an arbitrary thrown error into a
structured error with a code, message and retryability flag. -/
structure StructuredError where
  code : ErrCode
  message : String
  retryable : Bool
deriving DecidableEq

def classifyError (e : ApiErr) : StructuredError :=
  { code := ErrCode.classified e.kind, message := e.message, retryable := e.retryable }

-- ============================================================================
-- Structured output blocks (modelled from the spec: src/tools/utils.ts with
-- formatError / formatSuccess / formatBatchHeader is not in the provided
-- sources)
-- ============================================================================

/-- The structured error payload `formatError` renders.  Modelled from the
spec: "a structured error payload (code, message, retry hint, remediation
steps, alternative tool suggestions)".  Fields the call site omits are
`none`, mirroring the optional parameters of `formatError`. -/
structure ErrorPayload where
  code : ErrCode
  message : String
  toolName : String
  retryable : Option Bool := none
  howToFix : Option (List String) := none
  alternatives : Option (List String) := none
deriving DecidableEq

/-- A block of the rendered markdown report.  Modelled from the spec:
the uniform "70/20/10" report format (summary / data / next-steps). -/
inductive Block
  | summary (text : String)
  | data (text : String)
  | nextSteps (steps : List String)
  | meta (entries : List (String × String))
  | error (payload : ErrorPayload)
deriving DecidableEq

/-- Modelled from the spec: `formatError` (src/tools/utils.ts, not in the
provided sources) renders the structured error payload. -/
def formatError (p : ErrorPayload) : List Block := [Block.error p]

structure SuccessParts where
  title : String
  summary : String
  data : String
  nextSteps : List String
  metadata : List (String × String) := []

/-- Modelled from the spec: `formatSuccess` (src/tools/utils.ts, not in the
provided sources) renders the uniform 70/20/10 report: summary, then data,
then next steps (trailing metadata footer). -/
def formatSuccess (s : SuccessParts) : List Block :=
  [Block.summary (s.title ++ "\n" ++ s.summary),
   Block.data s.data,
   Block.nextSteps s.nextSteps,
   Block.meta s.metadata]

structure BatchHeaderParts where
  title : String
  totalItems : Nat
  successful : Nat
  failed : Nat
  tokensPerItem : Option Nat := none
  batches : Option Nat := none
  extras : List (String × String) := []

/-- Modelled from the spec: `formatBatchHeader` (src/tools/utils.ts, not in
the provided sources) renders a one-paragraph batch summary line. -/
def formatBatchHeader (b : BatchHeaderParts) : String :=
  b.title ++ ": " ++ toString b.successful ++ "/" ++ toString b.totalItems
    ++ " successful, " ++ toString b.failed ++ " failed"
    ++ (match b.tokensPerItem with
        | some t => " | " ++ toString t ++ " tokens/item"
        | none => "")
    ++ (match b.batches with
        | some n => " | " ++ toString n ++ " batch(es)"
        | none => "")
    ++ String.join (b.extras.map (fun e => " | " ++ e.1 ++ ": " ++ e.2))

/-- Modelled from the spec: `truncateText` (src/tools/utils.ts, not in the
provided sources) truncates a preview to the given length. -/
def truncateText (s : String) (n : Nat) : String :=
  if s.length ≤ n then s else (s.toList.take n).asString

-- ============================================================================
-- Token budgets (modelled from the spec: src/tools/utils.ts is not in the
-- provided sources; the deep_research MAX_QUESTIONS message names a 32K
-- budget and SCRAPER.MAX_TOKENS_BUDGET in src/config/index.ts is 32000)
-- ============================================================================

structure TokenBudgets where
  SCRAPER : Nat
  RESEARCH : Nat

def TOKEN_BUDGETS : TokenBudgets := { SCRAPER := 32000, RESEARCH := 32000 }

/-- Modelled from the spec: `calculateTokenAllocation` (src/tools/utils.ts,
not in the provided sources) "allocat[es] a fixed token budget proportionally
across N items": each item gets the floor of budget / count, as
`Math.floor(TOKEN_BUDGETS.RESEARCH / urls.length)` does inline in
handleGetRedditPosts. -/
def calculateTokenAllocation (count : Nat) (budget : Nat) : Nat :=
  budget / count

-- ============================================================================
-- Configuration constants (src/config/index.ts)
-- ============================================================================

structure ScraperConfig where
  MAX_CONCURRENT : Nat
  BATCH_SIZE : Nat
  MAX_TOKENS_BUDGET : Nat
  MIN_URLS : Nat
  MAX_URLS : Nat
  RETRY_COUNT : Nat
  RETRY_DELAYS : List Nat

def SCRAPER : ScraperConfig :=
  { MAX_CONCURRENT := 30
    BATCH_SIZE := 30
    MAX_TOKENS_BUDGET := 32000
    MIN_URLS := 3
    MAX_URLS := 50
    RETRY_COUNT := 3
    RETRY_DELAYS := [2000, 4000, 8000] }

structure RedditConfig where
  MAX_CONCURRENT : Nat
  BATCH_SIZE : Nat
  MAX_COMMENT_BUDGET : Nat
  MAX_COMMENTS_PER_POST : Nat
  MIN_POSTS : Nat
  MAX_POSTS : Nat
  RETRY_COUNT : Nat
  RETRY_DELAYS : List Nat

def REDDIT : RedditConfig :=
  { MAX_CONCURRENT := 10
    BATCH_SIZE := 10
    MAX_COMMENT_BUDGET := 1000
    MAX_COMMENTS_PER_POST := 200
    MIN_POSTS := 2
    MAX_POSTS := 50
    RETRY_COUNT := 5
    RETRY_DELAYS := [2000, 4000, 8000, 16000, 32000] }

/-- CTR weights for URL ranking (src/config/index.ts).  TypeScript `number`s
are embedded as rationals. -/
def CTR_WEIGHTS (position : Int) : Option ℚ :=
  match position with
  | 1 => some 100
  | 2 => some 60
  | 3 => some 48.89
  | 4 => some 33.33
  | 5 => some 28.89
  | 6 => some 26.44
  | 7 => some 24.44
  | 8 => some 17.78
  | 9 => some 13.33
  | 10 => some 12.56
  | _ => none

/-- src/tools/search.ts `getPositionScore`: table lookup for positions
1 through 10 (`CTR_WEIGHTS[position] ?? 0`), linear decay clamped at 0
above 10. -/
def getPositionScore (position : Int) : ℚ :=
  if 1 ≤ position ∧ position ≤ 10 then
    (CTR_WEIGHTS position).getD 0
  else
    max 0 (10 - ((position : ℚ) - 10) * 0.5)

-- ============================================================================
-- Markdown cleaner (src/services/markdown-cleaner.ts).  Strings are embedded
-- as character lists; the third-party Turndown conversion is an oracle
-- function carried by the `MarkdownCleaner` instance.
-- ============================================================================

/-- The whitespace class removed by `String.prototype.trim` (restricted to the
common ASCII whitespace characters). -/
def isTrimWS (c : Char) : Bool :=
  c == ' ' || c == '\t' || c == '\n' || c == '\r' || c == '\x0b' || c == '\x0c'

/-- `String.prototype.trim`: drop leading and trailing whitespace. -/
def trimChars (l : List Char) : List Char :=
  (l.dropWhile isTrimWS).rdropWhile isTrimWS

theorem mem_of_mem_trimChars {c : Char} {l : List Char} (h : c ∈ trimChars l) :
    c ∈ l :=
  (List.dropWhile_suffix isTrimWS).sublist.mem
    ((List.rdropWhile_prefix isTrimWS _).sublist.mem h)

theorem trimChars_idempotent (l : List Char) :
    trimChars (trimChars l) = trimChars l := by
  unfold trimChars
  have h1 : ((l.dropWhile isTrimWS).rdropWhile isTrimWS).dropWhile isTrimWS
      = (l.dropWhile isTrimWS).rdropWhile isTrimWS := by
    rw [List.dropWhile_eq_self_iff]
    intro hl
    have hne : (l.dropWhile isTrimWS).rdropWhile isTrimWS ≠ [] :=
      List.ne_nil_of_length_pos hl
    have hpre := List.rdropWhile_prefix isTrimWS (l.dropWhile isTrimWS)
    have hAne : l.dropWhile isTrimWS ≠ [] := by
      intro hA
      exact hne (by rw [hA, List.rdropWhile_nil])
    have hhead := hpre.head hne
    have hget : ((l.dropWhile isTrimWS).rdropWhile isTrimWS).get ⟨0, hl⟩
        = ((l.dropWhile isTrimWS).rdropWhile isTrimWS).head hne := by
      simp [List.head_eq_getElem]
    rw [hget, hhead]
    simp [List.head_dropWhile_not isTrimWS l hAne]
  rw [h1, List.rdropWhile_idempotent]

/-- Scan forward for the end marker of an HTML comment; on success return the
remainder after the closing marker. -/
def findCommentEnd : List Char → Option (List Char)
  | [] => none
  | c :: rest =>
    if c = '-' ∧ rest.take 2 = ['-', '>'] then some (rest.drop 2)
    else findCommentEnd rest

theorem findCommentEnd_length :
    ∀ (l r : List Char), findCommentEnd l = some r → r.length < l.length := by
  intro l
  induction l with
  | nil => intro r h; simp [findCommentEnd] at h
  | cons c rest ih =>
    intro r h
    rw [findCommentEnd] at h
    by_cases hc : c = '-' ∧ rest.take 2 = ['-', '>']
    · rw [if_pos hc] at h
      cases h
      simp [List.length_drop]
      omega
    · rw [if_neg hc] at h
      exact Nat.lt_trans (ih r h) (by simp)

/-- The comment-removal regex `<!--[\s\S]*?-->` applied globally: each
`<!--` with a closing `-->` is removed (non-greedy), an unterminated `<!--`
is left in place (the regex does not match it). -/
def stripComments (l : List Char) : List Char :=
  match l with
  | [] => []
  | '<' :: '!' :: '-' :: '-' :: rest =>
    match h : findCommentEnd rest with
    | some rest2 => stripComments rest2
    | none => '<' :: '!' :: '-' :: '-' :: rest
  | c :: rest => c :: stripComments rest
termination_by l.length
decreasing_by
  · have := findCommentEnd_length rest rest2 h
    simp only [List.length_cons]
    omega
  · simp only [List.length_cons]
    omega

/-- The whitespace-cleanup regex `\n{3,}` → `"\n\n"` applied globally: every
maximal run of three or more newlines collapses to two. -/
def collapseNewlines (l : List Char) : List Char :=
  match l with
  | '\n' :: '\n' :: '\n' :: rest =>
    '\n' :: '\n' :: collapseNewlines (rest.dropWhile (· == '\n'))
  | c :: rest => c :: collapseNewlines rest
  | [] => []
termination_by l.length
decreasing_by
  · have hs : (rest.dropWhile (fun c => c == '\n')).length ≤ rest.length :=
      (List.dropWhile_suffix _).length_le
    simp only [List.length_cons]
    omega
  · simp only [List.length_cons]
    omega

/-- src/services/markdown-cleaner.ts `MarkdownCleaner`; `turndown` is the
third-party TurndownService conversion (script/style/nav/... removal
included), supplied as an oracle. -/
structure MarkdownCleaner where
  turndown : List Char → List Char

/-- `MarkdownCleaner.processContent`: return empty input as-is; return
non-HTML input trimmed; otherwise strip HTML comments, convert via Turndown,
collapse newline runs and trim. -/
def MarkdownCleaner.processContent (m : MarkdownCleaner) (htmlContent : List Char) :
    List Char :=
  if htmlContent = [] then htmlContent
  else if htmlContent.contains '<' = false then trimChars htmlContent
  else trimChars (collapseNewlines (m.turndown (stripComments htmlContent)))

-- ============================================================================
-- Bounded parallel map (modelled from the spec: src/utils/concurrency.ts is
-- not in the provided sources; the spec describes "a bounded parallel-map
-- (fan-out to at most K simultaneous external calls)").  Execution proceeds
-- in waves: at any instant the tasks in flight are the tasks of the current
-- wave, so a wave's length bounds the simultaneous fan-out.
-- ============================================================================

/-- Split a list into consecutive waves of `k` tasks (at least one task per
wave, so a zero limit degenerates to sequential execution). -/
def chunksOf {α : Type} (k : Nat) (l : List α) : List (List α) :=
  match l with
  | [] => []
  | x :: xs => (x :: xs).take (max k 1) :: chunksOf k ((x :: xs).drop (max k 1))
termination_by l.length
decreasing_by
  simp only [List.length_drop, List.length_cons]
  omega

theorem chunksOf_flatten {α : Type} (k : Nat) (l : List α) :
    (chunksOf k l).flatten = l := by
  induction l using chunksOf.induct k with
  | case1 => simp [chunksOf]
  | case2 x xs ih =>
    rw [chunksOf]
    simp only [List.flatten_cons, ih, List.take_append_drop]

theorem length_le_of_mem_chunksOf {α : Type} {k : Nat} {l : List α}
    {c : List α} (hk : 1 ≤ k) (h : c ∈ chunksOf k l) : c.length ≤ k := by
  induction l using chunksOf.induct k with
  | case1 => simp [chunksOf] at h
  | case2 x xs ih =>
    rw [chunksOf] at h
    rcases List.mem_cons.mp h with h1 | h2
    · subst h1
      have hmax : max k 1 = k := by omega
      simp only [hmax]
      exact List.length_take_le k (x :: xs)
    · exact ih h2

/-- Modelled from the spec: the bounded parallel-map helper `pMap`
(src/utils/concurrency.ts, not in the provided sources).  Functionally it
maps `f` over the list in input order; operationally the tasks run in
waves of at most `concurrency` simultaneous calls. -/
def pMap {α β : Type} (l : List α) (f : α → β) (concurrency : Nat) : List β :=
  ((chunksOf concurrency l).map (List.map f)).flatten

theorem pMap_eq_map {α β : Type} (l : List α) (f : α → β) (k : Nat) :
    pMap l f k = l.map f := by
  unfold pMap
  rw [← List.map_flatten, chunksOf_flatten]

-- ============================================================================
-- Search data shapes (mirrored from their use in src/tools/search.ts; the
-- Serper client module is not in the provided sources)
-- ============================================================================

structure SearchResultItem where
  title : String
  link : String
  snippet : Option String := none
  date : Option String := none
deriving DecidableEq

structure SearchQueryResult where
  keyword : String
  results : List SearchResultItem
  related : List String := []
deriving DecidableEq

structure SearchResponse where
  totalKeywords : Nat
  searches : List SearchQueryResult
deriving DecidableEq

-- ============================================================================
-- URL aggregation (modelled from the spec: src/utils/url-aggregator.ts is not
-- in the provided sources; the spec describes "aggregating and ranking
-- results from multiple parallel queries by a frequency/position-weighted
-- scoring scheme")
-- ============================================================================

structure RankedUrl where
  url : String
  frequency : Nat
  score : ℚ
deriving DecidableEq

/-- Number of queries whose result list mentions the URL. -/
def urlFrequency (searches : List SearchQueryResult) (u : String) : Nat :=
  (searches.filter (fun s => s.results.any (fun r => r.link == u))).length

/-- Position-weighted score the URL collects inside one query: the sum of
`getPositionScore` over the 1-based positions at which it occurs. -/
def queryUrlScore (s : SearchQueryResult) (u : String) : ℚ :=
  ((s.results.enum.filter (fun ri => ri.2.link == u)).map
    (fun ri => getPositionScore ((ri.1 : Int) + 1))).sum

/-- Total frequency/position-weighted score of a URL across all queries. -/
def urlScore (searches : List SearchQueryResult) (u : String) : ℚ :=
  (searches.map (fun s => queryUrlScore s u)).sum

def uniqueUrls (searches : List SearchQueryResult) : List String :=
  ((searches.map (fun s => s.results.map (fun r => r.link))).flatten).dedup

/-- Ranking order: higher score first. -/
def rankRel (a b : RankedUrl) : Prop := b.score ≤ a.score

instance : DecidableRel rankRel :=
  fun a b => inferInstanceAs (Decidable (b.score ≤ a.score))

instance : IsTotal RankedUrl rankRel := ⟨fun a b => le_total b.score a.score⟩

instance : IsTrans RankedUrl rankRel := ⟨fun _ _ _ hab hbc => le_trans hbc hab⟩

structure Aggregation where
  rankedUrls : List RankedUrl
  totalUniqueUrls : Nat
  frequencyThreshold : Nat
  thresholdNote : String
deriving DecidableEq

/-- Modelled from the spec: `aggregateAndRank` (src/utils/url-aggregator.ts,
not in the provided sources) aggregates results of all parallel queries by
URL and ranks them by the frequency/position-weighted score.  The frequency
threshold computation is not specified; it is modelled as the cap argument
limited by the number of searches. -/
def aggregateAndRank (searches : List SearchQueryResult) (cap : Nat) : Aggregation :=
  let urls := uniqueUrls searches
  { rankedUrls :=
      List.insertionSort rankRel
        (urls.map (fun u => ⟨u, urlFrequency searches u, urlScore searches u⟩))
    totalUniqueUrls := urls.length
    frequencyThreshold := min cap searches.length
    thresholdNote := "consensus threshold derived from query count" }

/-- Modelled from the spec: `buildUrlLookup` builds the URL lookup table of
the ranked list (embedded as the list itself). -/
def buildUrlLookup (rankedUrls : List RankedUrl) : List RankedUrl := rankedUrls

/-- Modelled from the spec: `lookupUrl` finds a ranked entry by its URL. -/
def lookupUrl (link : String) (lookup : List RankedUrl) : Option RankedUrl :=
  lookup.find? (fun r => r.url == link)

/-- Modelled from the spec: `markConsensus` renders a consensus marker from
the frequency (display only). -/
def markConsensus (frequency : Nat) : String :=
  if 3 ≤ frequency then "🔥" else if 2 ≤ frequency then "✓" else "·"

/-- Modelled from the spec: `generateEnhancedOutput` renders the consensus
section header and the consensus URL list (display only). -/
def generateEnhancedOutput (consensusUrls : List RankedUrl) (keywords : List String)
    (totalUniqueUrls : Nat) (frequencyThreshold : Nat) (thresholdNote : String) : String :=
  "## The Perfect Search Results (Aggregated from " ++ toString keywords.length
    ++ " Queries)\n\n"
    ++ String.join (consensusUrls.map (fun u =>
        "- " ++ markConsensus u.frequency ++ " " ++ u.url ++ " ("
          ++ toString u.frequency ++ " searches)\n"))
    ++ "\n*" ++ toString totalUniqueUrls ++ " unique URLs | threshold "
    ++ toString frequencyThreshold ++ " | " ++ thresholdNote ++ "*\n"

-- ============================================================================
-- Web search handler (src/tools/search.ts)
-- ============================================================================

structure WebSearchParams where
  keywords : List String
deriving DecidableEq

/-- Outcome of the one external call `client.searchMultiple` (Serper). -/
structure WebSearchOracle where
  searchMultiple : Except ApiErr SearchResponse

structure WebSearchMeta where
  total_keywords : Nat
  total_results : Nat
  total_unique_urls : Option Nat := none
  consensus_url_count : Option Nat := none
  frequency_threshold : Option Nat := none
  errorCode : Option ErrCode := none
deriving DecidableEq

structure WebSearchResponse where
  content : List Block
  metadata : WebSearchMeta
deriving DecidableEq

/-- Display abstraction for JavaScript `toFixed(1)`. -/
def toFixed1 (q : ℚ) : String := toString q

/-- One numbered result line plus optional snippet line (search.ts loop
body). -/
def renderSearchResult (urlLookup : List RankedUrl) (resultIndex : Nat)
    (result : SearchResultItem) : String :=
  let position := resultIndex + 1
  let positionScore := getPositionScore (position : Int)
  let rankedUrl := lookupUrl result.link urlLookup
  let frequency := (rankedUrl.map (fun r => r.frequency)).getD 1
  let consensusMark := markConsensus frequency
  let consensusInfo :=
    match rankedUrl with
    | some _ => consensusMark ++ " (" ++ toString frequency ++ " searches)"
    | none => consensusMark ++ " (1 search)"
  let line :=
    toString position ++ ". **[" ++ result.title ++ "](" ++ result.link
      ++ ")** — Position " ++ toString position ++ " | Score: "
      ++ toFixed1 positionScore ++ " | Consensus: " ++ consensusInfo ++ "\n"
  let snippetLine :=
    match result.snippet with
    | none => ""
    | some sn =>
      let sn := if sn.length > 150 then (sn.toList.take 147).asString ++ "..." else sn
      match result.date with
      | some d => "   - *" ++ d ++ "* — " ++ sn ++ "\n"
      | none => "   - " ++ sn ++ "\n"
  line ++ snippetLine ++ "\n"

/-- One per-query section of the full-results data part (search.ts loop). -/
def renderQuerySection (urlLookup : List RankedUrl) (maxResultsPerQuery : Nat)
    (lastIndex : Nat) (iq : Nat × SearchQueryResult) : String :=
  let index := iq.1
  let search := iq.2
  "### Query " ++ toString (index + 1) ++ ": \"" ++ search.keyword ++ "\"\n\n"
    ++ String.join
        ((search.results.take maxResultsPerQuery).enum.map
          (fun ri => renderSearchResult urlLookup ri.1 ri.2))
    ++ (if search.related.length > 0 then
          "*Related:* "
            ++ String.intercalate ", "
                ((search.related.take 5).map (fun r => "\x60" ++ r ++ "\x60"))
            ++ "\n\n"
        else "")
    ++ (if index < lastIndex then "---\n\n" else "")

/-- Number of result lines actually rendered (`totalResults` counter). -/
def countShownResults (maxResultsPerQuery : Nat) (qs : List SearchQueryResult) : Nat :=
  (qs.map (fun s => (s.results.take maxResultsPerQuery).length)).sum

def webSearchSuccess (p : WebSearchParams) (response : SearchResponse) : WebSearchResponse :=
  let aggregation := aggregateAndRank response.searches 5
  let urlLookup := buildUrlLookup aggregation.rankedUrls
  let consensusUrls :=
    aggregation.rankedUrls.filter
      (fun url => aggregation.frequencyThreshold ≤ url.frequency)
  let summaryMd :=
    if consensusUrls.length > 0 then
      generateEnhancedOutput consensusUrls p.keywords
        aggregation.totalUniqueUrls aggregation.frequencyThreshold
        aggregation.thresholdNote ++ "\n---\n\n"
    else
      "## The Perfect Search Results (Aggregated from "
        ++ toString response.totalKeywords ++ " Queries)\n\n"
        ++ "> *No high-consensus URLs found across searches. Results may be highly diverse.*\n\n"
        ++ "---\n\n"
  let maxResultsPerQuery := if response.totalKeywords > 10 then 5 else 10
  let queriesToShow := response.searches.take 15
  let queriesOmitted := response.searches.length - queriesToShow.length
  let dataMd :=
    "## 📊 Full Search Results by Query"
      ++ (if queriesOmitted > 0 then
            " (showing " ++ toString queriesToShow.length ++ " of "
              ++ toString response.searches.length ++ ")"
          else "")
      ++ "\n\n"
      ++ String.join
          (queriesToShow.enum.map
            (renderQuerySection urlLookup maxResultsPerQuery (queriesToShow.length - 1)))
      ++ (if queriesOmitted > 0 then
            "\n---\n\n> *" ++ toString queriesOmitted
              ++ " additional queries not shown. Consensus URLs above include all "
              ++ toString response.searches.length ++ " queries.*\n"
          else "")
  let totalResults := countShownResults maxResultsPerQuery queriesToShow
  let topConsensusUrls :=
    if consensusUrls.length > 0 then
      String.intercalate ", "
        ((consensusUrls.take 5).map (fun u => "\"" ++ u.url ++ "\""))
    else
      String.intercalate ", "
        ((aggregation.rankedUrls.take 5).map (fun u => "\"" ++ u.url ++ "\""))
  let nextSteps :=
    ["SCRAPE NOW: scrape_links(urls=[" ++ topConsensusUrls
       ++ "], use_llm=true, what_to_extract=\"Extract key findings | recommendations | data | evidence | comparisons\") — you only have URLs right now, NOT content. Searching without scraping is like reading a table of contents without opening the book. Scrape immediately.",
     "GET REAL OPINIONS: search_reddit(queries=[\"topic recommendations\", \"topic best 2025\", \"topic vs alternatives\", \"topic problems\", \"topic experience\"]) — web results are curated marketing. Reddit has raw, unfiltered user experiences. You need both perspectives.",
     "SEARCH DEEPER: Look at the \"Related\" suggestions above. If ANY of them reveal angles you haven\x27t covered, run web_search again with those as keywords. First-pass searches are NEVER comprehensive enough.",
     "ONLY THEN SYNTHESIZE: deep_research(questions=[\x7bquestion: \"Based on scraped content and community feedback from Reddit, synthesize...\"\x7d]) — do NOT synthesize until you\x27ve scraped AND checked Reddit. Synthesizing from URLs alone produces shallow analysis."]
  { content :=
      [Block.summary summaryMd,
       Block.data dataMd,
       Block.nextSteps nextSteps,
       Block.meta
         [("unique URLs", toString aggregation.totalUniqueUrls),
          ("consensus", toString consensusUrls.length)]]
    metadata :=
      { total_keywords := response.totalKeywords
        total_results := totalResults
        total_unique_urls := some aggregation.totalUniqueUrls
        consensus_url_count := some consensusUrls.length
        frequency_threshold := some aggregation.frequencyThreshold } }

def webSearchError (p : WebSearchParams) (structuredError : StructuredError) :
    WebSearchResponse :=
  let errorContent :=
    formatError
      { code := structuredError.code
        message := "web_search failed: " ++ structuredError.message
        toolName := "web_search"
        retryable := some structuredError.retryable
        howToFix := some
          ["Verify SERPER_API_KEY is set correctly in your environment variables — get a free key at https://serper.dev (2,500 free queries)",
           if structuredError.retryable then
             "This is temporary — wait 3 seconds and call web_search again with the same keywords"
           else "Fix the API key and retry"]
        alternatives := some
          ["search_reddit(queries=[\"topic recommendations\", \"topic best practices\", \"topic vs alternatives\"]) — same API but different endpoint, may still work; also gives you community perspective",
           "deep_research(questions=[\x7bquestion: \"What are the key findings, best practices, and recommendations for [topic]?\"\x7d]) — uses OpenRouter API (completely different service), will work even if Serper is down",
           "scrape_links(urls=[...any URLs you already have from prior steps...], use_llm=true) — if you gathered URLs earlier, scrape them NOW instead of waiting for search to recover"] }
  { content := errorContent
    metadata :=
      { total_keywords := p.keywords.length
        total_results := 0
        errorCode := some structuredError.code } }

/-- src/tools/search.ts `handleWebSearch`: the whole body is inside a
try/catch, so an external failure is classified and rendered as a structured
error response. -/
def handleWebSearch (p : WebSearchParams) (o : WebSearchOracle) :
    Except ApiErr WebSearchResponse := do
  try
    let response ← o.searchMultiple
    pure (webSearchSuccess p response)
  catch e =>
    pure (webSearchError p (classifyError e))

-- ============================================================================
-- Scrape links handler (handleScrapeLinks source file)
-- ============================================================================

structure ScrapeLinksParams where
  urls : List String
  use_llm : Bool := false
  what_to_extract : Option String := none
  timeout : Option Nat := none
  model : Option String := none
deriving DecidableEq

/-- One scrape outcome as returned by `scrapeMultiple` (client not in the
provided sources; shape mirrored from its use in the handler; the handler
comment documents that `scrapeMultiple` NEVER throws). -/
structure ScrapeResult where
  url : String
  content : String
  statusCode : Int
  credits : Nat
  error : Option ApiErr := none
deriving DecidableEq

/-- Options handed to `processContentWithLLM`. -/
structure LLMOptions where
  use_llm : Bool
  what_to_extract : Option String := none
  max_tokens : Nat
  model : Option String := none
deriving DecidableEq

/-- Result of `processContentWithLLM` (src/services/llm-processor.ts, not in
the provided sources); modelled from its use: it reports success via
`processed` and carries the error as a value instead of throwing. -/
structure LLMResult where
  processed : Bool
  content : String
  error : Option String := none
deriving DecidableEq

structure ScrapeOracle where
  /-- Whether `new URL(url)` succeeds (host URL parser; the handler catches
  the throw and marks the URL invalid). -/
  isValidUrl : String → Bool
  /-- `new ScraperClient()` (throws when SCRAPEDO_API_KEY is missing; the
  handler catches it). -/
  clientInit : Except ApiErr Unit
  /-- `scrapeMultiple`, one result per valid URL, never throws. -/
  scrape : String → ScrapeResult
  /-- `createLLMProcessor()` returns null when unconfigured. -/
  llmAvailable : Bool
  /-- `processContentWithLLM`, never throws. -/
  llm : String → LLMOptions → LLMResult
  /-- Turndown HTML-to-Markdown conversion (third-party library). -/
  turndown : List Char → List Char
  /-- Modelled from the spec: `removeMetaTags` (src/utils/markdown-formatter.ts,
  not in the provided sources) strips meta tags from the markdown. -/
  removeMetaTags : String → String

structure ScrapeMeta where
  total_urls : Nat
  successful : Nat
  failed : Nat
  total_credits : Nat
  tokens_per_url : Option Nat := none
  total_token_budget : Option Nat := none
  batches_processed : Option Nat := none
deriving DecidableEq

structure ScrapeResponse where
  content : List Block
  metadata : ScrapeMeta
deriving DecidableEq

/-- `Math.ceil(a / b)` on naturals. -/
def ceilDiv (a b : Nat) : Nat := (a + b - 1) / b

/-- SCRAPER.EXTRACTION_SUFFIX (src/config/index.ts). -/
def SCRAPER_EXTRACTION_SUFFIX : String :=
  "Try to answer this information as comprehensive as possible while keeping info density super high without adding unnecessary words but satisfy the scope defined by previous instructions even more."

/-- Modelled from the spec: the scrape extraction prefix comes from the YAML
tool config (src/config/loader.ts and the YAML files are not in the provided
sources). -/
def scrapeExtractionPrefixText : String := ""

/-- scrape-links `enhanceExtractionInstruction`: wrap the caller instruction
(default when absent or empty, as `instruction || default`) in the
config-provided prefix and suffix. -/
def enhanceScrapeInstruction (instruction : Option String) : String :=
  let base :=
    match instruction with
    | some i => if i = "" then "Extract the main content and key information from this page." else i
    | none => "Extract the main content and key information from this page."
  scrapeExtractionPrefixText ++ "\n\n" ++ base ++ "\n\n" ++ SCRAPER_EXTRACTION_SUFFIX

/-- `markdownCleaner.processContent` applied to a handler string (the handler
wraps the call in try/catch; the embedding is total). -/
def processContentS (turndown : List Char → List Char) (s : String) : String :=
  ((MarkdownCleaner.mk turndown).processContent s.toList).asString

/-- `createErrorResponse` local helper of handleScrapeLinks: a structured
error block plus metadata counting every input URL as failed. -/
def createScrapeErrorResponse (p : ScrapeLinksParams) (code : ErrCode)
    (message : String) (retryable : Bool := false)
    (alternatives : Option (List String) := none) : ScrapeResponse :=
  { content :=
      formatError
        { code := code
          message := message
          toolName := "scrape_links"
          retryable := some retryable
          howToFix :=
            if code = ErrCode.NO_URLS then some ["Provide at least one valid URL"]
            else none
          alternatives := alternatives }
    metadata :=
      { total_urls := p.urls.length
        successful := 0
        failed := p.urls.length
        total_credits := 0 } }

/-- `result.error?.message || result.content || "HTTP <status>"` with
JavaScript string falsiness. -/
def scrapeFailedMsg (r : ScrapeResult) : String :=
  let em := ((r.error.map (fun e => e.message)).getD "")
  if em ≠ "" then em
  else if r.content ≠ "" then r.content
  else "HTTP " ++ toString r.statusCode

def isScrapeFailure (r : ScrapeResult) : Bool :=
  r.error.isSome || r.statusCode < 200 || 300 ≤ r.statusCode

structure Pass1Acc where
  successful : Nat := 0
  failed : Nat := 0
  totalCredits : Nat := 0
  contents : List String := []
  successItems : List (String × String) := []
deriving DecidableEq

/-- Pass 1 loop body of handleScrapeLinks: count a failure and render its
entry, or count a success, add its credits and keep the cleaned content. -/
def pass1Step (cleanContent : String → String) (acc : Pass1Acc)
    (r : ScrapeResult) : Pass1Acc :=
  if isScrapeFailure r then
    { acc with
        failed := acc.failed + 1
        contents :=
          acc.contents ++ ["## " ++ r.url ++ "\n\n❌ Failed to scrape: " ++ scrapeFailedMsg r] }
  else
    { acc with
        successful := acc.successful + 1
        totalCredits := acc.totalCredits + r.credits
        successItems := acc.successItems ++ [(r.url, cleanContent r.content)] }

def scrapeLinksSuccess (p : ScrapeLinksParams) (o : ScrapeOracle)
    (validUrls invalidUrls : List String) : ScrapeResponse :=
  let tokensPerUrl := calculateTokenAllocation validUrls.length TOKEN_BUDGETS.SCRAPER
  let totalBatches := ceilDiv validUrls.length SCRAPER.BATCH_SIZE
  let enhancedInstruction :=
    if p.use_llm then some (enhanceScrapeInstruction p.what_to_extract) else none
  let results := validUrls.map o.scrape
  let init : Pass1Acc :=
    { failed := invalidUrls.length
      contents := invalidUrls.map (fun u => "## " ++ u ++ "\n\n❌ Invalid URL format") }
  let acc := results.foldl (pass1Step (processContentS o.turndown)) init
  let llmOpts : LLMOptions :=
    { use_llm := p.use_llm
      what_to_extract := enhancedInstruction
      max_tokens := tokensPerUrl
      model := p.model }
  let llmPass := p.use_llm && o.llmAvailable && acc.successItems.length > 0
  let successItems :=
    if llmPass then
      pMap acc.successItems
        (fun item =>
          let lr := o.llm item.2 llmOpts
          if lr.processed then (item.1, lr.content) else item) 3
    else acc.successItems
  let llmErrors :=
    if llmPass then
      (acc.successItems.filter (fun item => (o.llm item.2 llmOpts).processed = false)).length
    else 0
  let contents :=
    acc.contents ++ successItems.map (fun item => "## " ++ item.1 ++ "\n\n" ++ o.removeMetaTags item.2)
  let batchHeader :=
    formatBatchHeader
      { title := "Scraped Content (" ++ toString p.urls.length ++ " URLs)"
        totalItems := p.urls.length
        successful := acc.successful
        failed := acc.failed
        tokensPerItem := some tokensPerUrl
        batches := some totalBatches
        extras :=
          [("Credits used", toString acc.totalCredits)]
            ++ (if llmErrors > 0 then [("LLM extraction failures", toString llmErrors)] else []) }
  let nextSteps :=
    ([if acc.successful > 0 then
        some "FOLLOW THE TRAIL: Read through the scraped content above. If it references other URLs, documentation pages, GitHub repos, or data sources — scrape those too: scrape_links(urls=[...referenced URLs...], use_llm=true). The best insights are often one link away from your initial scrape."
      else none,
      if acc.successful > 0 then
        some "VERIFY CLAIMS: The content above may contain outdated info, marketing claims, or biased perspectives. Cross-check: web_search(keywords=[\"specific claim from above\", \"topic official documentation\", \"topic benchmark data 2025\"]) — trust but verify."
      else none,
      if acc.successful > 0 then
        some "GET REAL-WORLD EXPERIENCE: search_reddit(queries=[\"topic experiences\", \"topic problems\", \"topic recommendations\", \"topic vs alternatives\"]) — scraped docs tell you what something IS, Reddit tells you how it WORKS IN PRACTICE. You need both."
      else none,
      if acc.successful > 0 then
        some "ONLY THEN SYNTHESIZE: deep_research(questions=[\x7bquestion: \"Based on scraped primary sources and community validation...\"\x7d]) — do NOT synthesize yet if you haven\x27t verified claims and checked community opinions. Premature synthesis = shallow analysis."
      else none,
      if acc.failed > 0 then
        some ("RETRY FAILURES: " ++ toString acc.failed ++ " URL(s) failed. Retry with longer timeout: scrape_links(urls=[...failed URLs...], timeout=90). If still failing, the site may be blocking scrapers — try web_search to find cached/mirrored versions.")
      else none] : List (Option String)).reduceOption
  { content :=
      formatSuccess
        { title := "Scraping Complete"
          summary := batchHeader
          data := String.intercalate "\n\n---\n\n" contents
          nextSteps := nextSteps
          metadata := [("Token budget", toString TOKEN_BUDGETS.SCRAPER)] }
    metadata :=
      { total_urls := p.urls.length
        successful := acc.successful
        failed := acc.failed
        total_credits := acc.totalCredits
        tokens_per_url := some tokensPerUrl
        total_token_budget := some TOKEN_BUDGETS.SCRAPER
        batches_processed := some totalBatches } }

/-- handleScrapeLinks: validates the URL list, initializes the scraper client
under a catch, then runs the scrape / clean / LLM-extract passes; every
error path returns a structured error response. -/
def handleScrapeLinks (p : ScrapeLinksParams) (o : ScrapeOracle) :
    Except ApiErr ScrapeResponse := do
  if p.urls.length = 0 then
    return createScrapeErrorResponse p ErrCode.NO_URLS
      "You called scrape_links with an empty URL list. You need at least 1 URL to scrape."
      false
      (some
        ["web_search(keywords=[\"topic documentation\", \"topic guide\", \"topic official site\"]) — search for URLs first, then pass the results to scrape_links",
         "search_reddit(queries=[\"topic recommendations\"]) — find Reddit discussions with links to scrape",
         "Once you have URLs, call scrape_links again with urls=[...your URLs...]"])
  let validUrls := p.urls.filter o.isValidUrl
  let invalidUrls := p.urls.filter (fun u => !o.isValidUrl u)
  if validUrls.length = 0 then
    return createScrapeErrorResponse p ErrCode.INVALID_URLS
      ("All " ++ toString p.urls.length
        ++ " URL(s) failed validation — none are valid HTTP/HTTPS URLs. Check for typos, missing protocols (https://), or malformed paths.")
      false
      (some
        ["Fix the URLs: ensure each starts with \"https://\" and is a complete, valid URL (e.g., \"https://example.com/page\" not \"example.com/page\")",
         "Then call scrape_links again immediately with the corrected URLs",
         "web_search(keywords=[\"topic documentation\", \"topic guide\"]) — if you don\x27t have valid URLs, search for them first",
         "search_reddit(queries=[\"topic recommendations\"]) — find discussion URLs to scrape instead"])
  match o.clientInit with
  | Except.error e =>
    return createScrapeErrorResponse p ErrCode.CLIENT_INIT_FAILED
      ("Scraper client failed to initialize: " ++ (classifyError e).message
        ++ ". This usually means SCRAPEDO_API_KEY is missing or invalid.")
      false
      (some
        ["Set SCRAPEDO_API_KEY in your environment — get a free key at https://scrape.do (1,000 free credits)",
         "Once set, call scrape_links again with the same URLs",
         "web_search(keywords=[\"topic key findings\", \"topic summary\", \"topic overview\"]) — search for information instead of scraping (uses Serper API, different service)",
         "search_reddit(queries=[\"topic discussion\", \"topic recommendations\"]) — get community insights as an alternative (uses Serper API)",
         "deep_research(questions=[\x7bquestion: \"Summarize key findings about [topic]\"\x7d]) — use AI research to gather equivalent information (uses OpenRouter API)"])
  | Except.ok _ =>
    pure (scrapeLinksSuccess p o validUrls invalidUrls)

-- ============================================================================
-- Deep research handler (handleDeepResearch source file)
-- ============================================================================

/-- File-local constant MIN_QUESTIONS of the deep-research handler. -/
def MIN_QUESTIONS : Nat := 1

/-- File-local constant MAX_QUESTIONS of the deep-research handler. -/
def MAX_QUESTIONS : Nat := 10

structure DRQuestion where
  question : String
  file_attachments : List String := []
deriving DecidableEq

structure DeepResearchParams where
  questions : List DRQuestion := []
deriving DecidableEq

/-- Response of `ResearchClient.research` (client not in the provided
sources); the handler comment documents that it returns the error inside the
response instead of throwing, and reads `content` and `usage.totalTokens`. -/
structure ResearchResponse where
  content : String
  error : Option ApiErr := none
  usageTotalTokens : Option Nat := none
deriving DecidableEq

structure ResearchRequest where
  question : String
  systemPrompt : String
  reasoningEffort : String
  maxSearchResults : Nat
  maxTokens : Nat
deriving DecidableEq

/-- RESEARCH configuration (src/config/index.ts); environment-dependent
fields carry their default values. -/
structure ResearchConfig where
  REASONING_EFFORT : String
  MAX_URLS : Nat

def RESEARCH : ResearchConfig := { REASONING_EFFORT := "high", MAX_URLS := 100 }

structure QuestionResult where
  question : String
  content : String
  success : Bool
  error : Option String := none
  tokensUsed : Option Nat := none
deriving DecidableEq

structure ResearchOracle where
  /-- `new ResearchClient()` (throws when OPENROUTER_API_KEY is missing; the
  handler catches it). -/
  clientInit : Except ApiErr Unit
  /-- `fileService.formatAttachments` (may throw; the per-question body
  catches it and keeps the original question). -/
  formatAttachments : List String → Except ApiErr String
  /-- `client.research` (returns errors in the response; the per-question
  safety net still catches a throw). -/
  research : ResearchRequest → Except ApiErr ResearchResponse

def SYSTEM_PROMPT : String :=
  "Expert research engine. Multi-source: docs, papers, blogs, case studies. Cite inline [source].\n\nFORMAT RULES:\n- For comparisons/features/structured data → use markdown table |Col|Col|Col|\n- For narrative/diagnostic/explanation → tight numbered bullets, no prose paragraphs\n- No intro, no greeting, no conclusion, no meta-commentary\n- No filler phrases: \"it is worth noting\", \"overall\", \"in conclusion\", \"importantly\"\n- Every sentence = fact, data point, or actionable insight\n- First line of output = content (never a preamble)"

/-- Modelled from the spec: the research compression suffix comes from the
YAML tool config with RESEARCH_PROMPTS.SUFFIX as fallback (the config loader
and the prompt constants are not in the provided sources). -/
def researchSuffixText : String := ""

def wrapQuestionWithCompression (question : String) : String :=
  question ++ "\n\n" ++ researchSuffixText

/-- Per-question body run by the bounded parallel map in handleDeepResearch:
attach files (falling back to the plain question when that fails), wrap with
the compression suffix, call the research client, and map every failure to an
unsuccessful `QuestionResult` (try/catch safety net included). -/
def researchOne (o : ResearchOracle) (tokensPerQuestion : Nat) (q : DRQuestion) :
    QuestionResult :=
  let enhancedQuestion :=
    if q.file_attachments.length > 0 then
      match o.formatAttachments q.file_attachments with
      | Except.ok attachmentsMarkdown => q.question ++ attachmentsMarkdown
      | Except.error _ => q.question
    else q.question
  let wrapped := wrapQuestionWithCompression enhancedQuestion
  match o.research
      { question := wrapped
        systemPrompt := SYSTEM_PROMPT
        reasoningEffort := RESEARCH.REASONING_EFFORT
        maxSearchResults := min RESEARCH.MAX_URLS 20
        maxTokens := tokensPerQuestion } with
  | Except.error e =>
    { question := q.question
      content := ""
      success := false
      error := some (classifyError e).message }
  | Except.ok response =>
    match response.error with
    | some err =>
      { question := q.question
        content := response.content
        success := false
        error := some err.message }
    | none =>
      { question := q.question
        content := response.content
        success := response.content ≠ ""
        tokensUsed := response.usageTotalTokens
        error := if response.content ≠ "" then none else some "Empty response received" }

inductive DRStructured
  | error (message : String)
  | ok (totalQuestions successful failed tokensPerQuestion totalTokensUsed : Nat)
      (results : List QuestionResult)
deriving DecidableEq

structure DeepResearchResponse where
  content : List Block
  structuredContent : DRStructured
deriving DecidableEq

/-- The data-section entries of one question result (`questionsData` pushes). -/
def questionEntryStrings (i : Nat) (r : QuestionResult) : List String :=
  ["## Question " ++ toString (i + 1) ++ ": " ++ truncateText r.question 100 ++ "\n"]
    ++ (if r.success then
          [r.content]
            ++ (match r.tokensUsed with
                | some t => if t ≠ 0 then ["\n*Tokens used: " ++ toString t ++ "*"] else []
                | none => [])
        else ["**❌ Error:** " ++ r.error.getD "undefined"])
    ++ ["\n---\n"]

def deepResearchSuccess (questions : List DRQuestion) (o : ResearchOracle) :
    DeepResearchResponse :=
  let tokensPerQuestion := calculateTokenAllocation questions.length TOKEN_BUDGETS.RESEARCH
  let results := pMap questions (researchOne o tokensPerQuestion) 3
  let successful := results.filter (fun r => r.success)
  let failed := results.filter (fun r => r.success = false)
  let totalTokens := (successful.map (fun r => r.tokensUsed.getD 0)).sum
  let batchHeader :=
    formatBatchHeader
      { title := "Deep Research Results"
        totalItems := questions.length
        successful := successful.length
        failed := failed.length
        tokensPerItem := some tokensPerQuestion
        extras := [("Total tokens used", toString totalTokens)] }
  let questionsData :=
    String.intercalate "\n" ((results.enum.map (fun ir => questionEntryStrings ir.1 ir.2)).flatten)
  let nextSteps :=
    ([if successful.length > 0 then
        some "VERIFY CITATIONS: The research above cites sources — but are they accurate? scrape_links(urls=[...cited URLs from research above...], use_llm=true, what_to_extract=\"Extract evidence | data | methodology | conclusions\") — AI research can hallucinate citations. Verify the actual source content matches what was claimed."
      else none,
      if successful.length > 0 then
        some "REALITY CHECK: search_reddit(queries=[\"topic real experience\", \"topic problems\", \"topic criticism\", \"topic vs alternatives\"]) — research gives you the textbook answer. Reddit gives you what actually happens in production. These often differ dramatically."
      else none,
      if successful.length > 0 then
        some "FOUND GAPS? Research almost always reveals unknowns you didn\x27t anticipate. If the answers above mention topics, tradeoffs, or alternatives you hadn\x27t considered — run deep_research again with NEW questions targeting those gaps. First-pass research is a starting point, not the final answer."
      else none,
      if successful.length > 0 then
        some "CROSS-CHECK KEY CLAIMS: web_search(keywords=[\"specific claim from research\", \"topic latest benchmarks 2025\", \"topic official docs\"]) — independent verification prevents you from building on incorrect assumptions."
      else none,
      if failed.length > 0 then
        some ("RETRY FAILURES: " ++ toString failed.length
          ++ " question(s) failed. Retry with more specific context, or split complex questions into simpler sub-questions. Each retry gets a fresh token budget.")
      else none] : List (Option String)).reduceOption
  { content :=
      formatSuccess
        { title :=
            "Research Complete (" ++ toString successful.length ++ "/"
              ++ toString questions.length ++ ")"
          summary := batchHeader
          data := questionsData
          nextSteps := nextSteps
          metadata := [("Token budget", toString TOKEN_BUDGETS.RESEARCH)] }
    structuredContent :=
      DRStructured.ok questions.length successful.length failed.length
        tokensPerQuestion totalTokens results }

def deepResearchMinQuestionsResponse (questions : List DRQuestion) : DeepResearchResponse :=
  { content :=
      formatError
        { code := ErrCode.MIN_QUESTIONS
          message :=
            "You sent " ++ toString questions.length ++ " question(s) but need at least "
              ++ toString MIN_QUESTIONS ++ ". Add "
              ++ toString (MIN_QUESTIONS - questions.length)
              ++ " more question(s) and call deep_research again."
          toolName := "deep_research"
          howToFix := some
            ["Add at least " ++ toString (MIN_QUESTIONS - questions.length)
               ++ " more question(s) following the structured template: WHAT I NEED → WHY → WHAT I KNOW → HOW I\x27LL USE → SPECIFIC QUESTIONS",
             "Each question should target a different angle of your research topic for maximum coverage",
             "Then call deep_research again immediately with the expanded questions array"]
          alternatives := some
            ["web_search(keywords=[\"topic overview\", \"topic best practices\", \"topic guide\"]) — gather context first, then formulate better research questions",
             "search_reddit(queries=[\"topic discussion\", \"topic recommendations\"]) — get community perspective while you refine your questions"] }
    structuredContent :=
      DRStructured.error
        ("Need " ++ toString (MIN_QUESTIONS - questions.length)
          ++ " more question(s). Add them and retry.") }

def deepResearchMaxQuestionsResponse (questions : List DRQuestion) : DeepResearchResponse :=
  let excess := questions.length - MAX_QUESTIONS
  let batches := ceilDiv questions.length MAX_QUESTIONS
  { content :=
      formatError
        { code := ErrCode.MAX_QUESTIONS
          message :=
            "You sent " ++ toString questions.length
              ++ " questions but the maximum per call is " ++ toString MAX_QUESTIONS
              ++ ". You have " ++ toString excess ++ " too many."
          toolName := "deep_research"
          howToFix := some
            ["Split into " ++ toString batches ++ " separate deep_research calls of ~"
               ++ toString (ceilDiv questions.length batches) ++ " questions each",
             "Call deep_research with the first " ++ toString MAX_QUESTIONS
               ++ " questions NOW, then call again with the remaining " ++ toString excess,
             "Each call gets its own 32K token budget, so splitting actually gives you MORE tokens total"] }
    structuredContent :=
      DRStructured.error
        ("Split into " ++ toString batches ++ " calls of " ++ toString MAX_QUESTIONS
          ++ " questions each") }

def deepResearchInitFailedResponse (e : ApiErr) : DeepResearchResponse :=
  let err := classifyError e
  { content :=
      formatError
        { code := ErrCode.CLIENT_INIT_FAILED
          message :=
            "Cannot start research — OpenRouter client failed to initialize: " ++ err.message
          toolName := "deep_research"
          howToFix := some
            ["Set the OPENROUTER_API_KEY environment variable — get a key at https://openrouter.ai/keys",
             "If the key is set, verify it hasn\x27t expired or been revoked",
             "Once fixed, call deep_research again with the same questions"]
          alternatives := some
            ["web_search(keywords=[\"topic best practices\", \"topic guide\", \"topic comparison 2025\"]) — uses Serper API (completely different service), will work even if OpenRouter is down",
             "search_reddit(queries=[\"topic recommendations\", \"topic experience\", \"topic discussion\"]) — uses Serper API, get real community perspective",
             "scrape_links(urls=[...any relevant URLs...], use_llm=false) — scrape without AI extraction (still gets raw content, no OpenRouter needed)"] }
    structuredContent :=
      DRStructured.error
        ("OpenRouter init failed: " ++ err.message
          ++ ". Use web_search or search_reddit instead.") }

/-- handleDeepResearch: validate the question count, initialize the client
under a catch, then research every question through the bounded parallel map
whose body never lets a failure escape. -/
def handleDeepResearch (p : DeepResearchParams) (o : ResearchOracle) :
    Except ApiErr DeepResearchResponse := do
  let questions := p.questions
  if questions.length < MIN_QUESTIONS then
    return deepResearchMinQuestionsResponse questions
  if questions.length > MAX_QUESTIONS then
    return deepResearchMaxQuestionsResponse questions
  match o.clientInit with
  | Except.error e => return deepResearchInitFailedResponse e
  | Except.ok _ => pure (deepResearchSuccess questions o)

-- ============================================================================
-- Reddit tools (search + fetch source file)
-- ============================================================================

structure Comment where
  author : String
  body : String
  score : Int
  depth : Nat
  isOP : Bool
deriving DecidableEq

structure RedditPost where
  title : String
  subreddit : String
  author : String
  score : Int
  commentCount : Nat
  url : String
  body : String := ""
deriving DecidableEq

structure PostResult where
  post : RedditPost
  comments : List Comment
  allocatedComments : Nat
deriving DecidableEq

structure CommentAllocation where
  perPostCapped : Nat
deriving DecidableEq

/-- Modelled from the spec: `calculateCommentAllocation`
(src/clients/reddit.ts, not in the provided sources) splits the comment
budget over the posts, capped per post, using the REDDIT config constants. -/
def calculateCommentAllocation (postCount : Nat) : CommentAllocation :=
  { perPostCapped :=
      min REDDIT.MAX_COMMENTS_PER_POST (REDDIT.MAX_COMMENT_BUDGET / postCount) }

/-- Result of `client.batchGetPosts` (src/clients/reddit.ts, not in the
provided sources); shape mirrored from its use: a per-URL map of post
results or error values, plus a rate-limit retry counter. -/
structure BatchGetPostsResult where
  results : List (String × Except ApiErr PostResult)
  rateLimitHits : Nat := 0

structure RedditOracle where
  /-- `client.batchGetPosts` (inside the handler try/catch). -/
  batchGetPosts : Except ApiErr BatchGetPostsResult
  /-- `createLLMProcessor()` returns null when unconfigured. -/
  llmAvailable : Bool
  /-- `processContentWithLLM`, never throws. -/
  llm : String → LLMOptions → LLMResult

def formatComment (c : Comment) : String :=
  let indent := String.join (List.replicate c.depth "  ")
  let op := if c.isOP then " **[OP]**" else ""
  let score := if c.score ≥ 0 then "+" ++ toString c.score else toString c.score
  indent ++ "- **u/" ++ c.author ++ "**" ++ op ++ " _(" ++ score ++ ")_\n"
    ++ String.intercalate "\n"
        ((c.body.splitOn "\n").map (fun line => indent ++ "  " ++ line))
    ++ "\n\n"

def formatComments (comments : List Comment) : String :=
  String.join (comments.map formatComment)

def formatPost (result : PostResult) (fetchComments : Bool) : String :=
  "## " ++ result.post.title ++ "\n\n"
    ++ "**r/" ++ result.post.subreddit ++ "** • u/" ++ result.post.author
    ++ " • ⬆️ " ++ toString result.post.score ++ " • 💬 "
    ++ toString result.post.commentCount ++ " comments\n"
    ++ "🔗 " ++ result.post.url ++ "\n\n"
    ++ (if result.post.body ≠ "" then
          "### Post Content\n\n" ++ result.post.body ++ "\n\n"
        else "")
    ++ (if fetchComments ∧ result.comments.length > 0 then
          "### Top Comments (" ++ toString result.comments.length ++ "/"
            ++ toString result.post.commentCount ++ " shown, allocated: "
            ++ toString result.allocatedComments ++ ")\n\n"
            ++ formatComments result.comments
        else if fetchComments = false then
          "_Comments not fetched (fetch_comments=false)_\n\n"
        else "")

/-- The hardcoded fallback extraction suffix of get_reddit_post (the YAML
config override path is not in the provided sources). -/
def redditExtractionSuffixText : String :=
  "\n---\n\n⚠️ IMPORTANT: Extract and synthesize the key insights, opinions, and recommendations from these Reddit discussions. Focus on:\n- Common themes and consensus across posts\n- Specific recommendations with context\n- Contrasting viewpoints and debates\n- Real-world experiences and lessons learned\n- Technical details and implementation tips\n\nBe comprehensive but concise. Prioritize actionable insights.\n\n---"

/-- get_reddit_post `enhanceExtractionInstruction`: default instruction when
absent or empty (`instruction || default`), then the extraction suffix. -/
def enhanceRedditInstruction (instruction : Option String) : String :=
  let base :=
    match instruction with
    | some i =>
      if i = "" then
        "Extract key insights, recommendations, and community consensus from these Reddit discussions."
      else i
    | none =>
      "Extract key insights, recommendations, and community consensus from these Reddit discussions."
  base ++ "\n\n" ++ redditExtractionSuffixText

structure GetRedditPostsOptions where
  fetchComments : Bool := true
  maxCommentsOverride : Option Nat := none
  use_llm : Bool := false
  what_to_extract : Option String := none
deriving DecidableEq

structure RedditAcc where
  successful : Nat := 0
  failed : Nat := 0
  llmErrors : Nat := 0
  contents : List String := []
deriving DecidableEq

/-- Loop body of the per-URL processing in handleGetRedditPosts: failed
fetches are rendered as failure entries; successes are formatted and, when
LLM extraction is on, replaced by the LLM analysis (falling back to the
formatted post and counting an LLM error when extraction fails). -/
def redditStep (o : RedditOracle) (useLLM : Bool) (fetchComments : Bool)
    (llmOpts : LLMOptions) (acc : RedditAcc)
    (entry : String × Except ApiErr PostResult) : RedditAcc :=
  match entry.2 with
  | Except.error err =>
    { acc with
        failed := acc.failed + 1
        contents := acc.contents ++ ["## ❌ Failed: " ++ entry.1 ++ "\n\n_" ++ err.message ++ "_"] }
  | Except.ok result =>
    let postContent := formatPost result fetchComments
    if useLLM ∧ o.llmAvailable then
      let llmResult := o.llm postContent llmOpts
      if llmResult.processed then
        { acc with
            successful := acc.successful + 1
            contents := acc.contents
              ++ ["## LLM Analysis: " ++ result.post.title ++ "\n\n**r/"
                   ++ result.post.subreddit ++ "** • u/" ++ result.post.author
                   ++ " • ⬆️ " ++ toString result.post.score ++ " • 💬 "
                   ++ toString result.post.commentCount ++ " comments\n🔗 "
                   ++ result.post.url ++ "\n\n" ++ llmResult.content] }
      else
        { acc with
            successful := acc.successful + 1
            llmErrors := acc.llmErrors + 1
            contents := acc.contents ++ [postContent] }
    else
      { acc with
          successful := acc.successful + 1
          contents := acc.contents ++ [postContent] }

def redditMinPostsBlocks (urls : List String) : List Block :=
  let deficit := REDDIT.MIN_POSTS - urls.length
  formatError
    { code := ErrCode.MIN_POSTS
      message :=
        "You sent " ++ toString urls.length ++ " Reddit URL(s) but the minimum is "
          ++ toString REDDIT.MIN_POSTS ++ ". You need " ++ toString deficit
          ++ " more URL(s)."
      toolName := "get_reddit_post"
      howToFix := some
        ["You\x27re only " ++ toString deficit
           ++ " URL(s) short! Run search_reddit first to find more posts, then come back with "
           ++ toString REDDIT.MIN_POSTS ++ "+ URLs",
         "Call: search_reddit(queries=[\"topic discussion\", \"topic recommendations\", \"topic experiences\"]) — this will return Reddit post URLs you can use",
         "Then call get_reddit_post again with the original URL(s) PLUS the new ones from search_reddit"]
      alternatives := some
        ["search_reddit(queries=[\"topic discussion\", \"topic recommendations\", \"topic experiences\"]) — find "
           ++ toString deficit
           ++ "+ more Reddit posts, then call get_reddit_post with ALL URLs combined",
         "web_search(keywords=[\"topic site:reddit.com\"]) — find Reddit posts via web search as a backup source of URLs"] }

def redditMaxPostsBlocks (urls : List String) : List Block :=
  let excess := urls.length - REDDIT.MAX_POSTS
  let batches := ceilDiv urls.length REDDIT.MAX_POSTS
  formatError
    { code := ErrCode.MAX_POSTS
      message :=
        "You sent " ++ toString urls.length ++ " URLs but the maximum is "
          ++ toString REDDIT.MAX_POSTS ++ " per call. You have " ++ toString excess
          ++ " too many."
      toolName := "get_reddit_post"
      howToFix := some
        ["Split into " ++ toString batches ++ " separate calls of ~"
           ++ toString (ceilDiv urls.length batches) ++ " URLs each, then combine the results",
         "Or remove the " ++ toString excess
           ++ " least-relevant URLs and call this tool again with the top "
           ++ toString REDDIT.MAX_POSTS] }

def redditPostsSuccess (urls : List String) (options : GetRedditPostsOptions)
    (o : RedditOracle) (batchResult : BatchGetPostsResult) : List Block :=
  let allocation := calculateCommentAllocation urls.length
  let commentsPerPost :=
    if options.fetchComments then
      match options.maxCommentsOverride with
      | some v => if v ≠ 0 then v else allocation.perPostCapped
      | none => allocation.perPostCapped
    else 0
  let totalBatches := ceilDiv urls.length REDDIT.BATCH_SIZE
  let tokensPerUrl :=
    if options.use_llm then TOKEN_BUDGETS.RESEARCH / urls.length else 0
  let enhancedInstruction :=
    if options.use_llm then some (enhanceRedditInstruction options.what_to_extract)
    else none
  let llmOpts : LLMOptions :=
    { use_llm := true
      what_to_extract := enhancedInstruction
      max_tokens := tokensPerUrl }
  let acc :=
    batchResult.results.foldl
      (redditStep o options.use_llm options.fetchComments llmOpts) {}
  let batchHeader :=
    formatBatchHeader
      { title := "Reddit Posts"
        totalItems := urls.length
        successful := acc.successful
        failed := acc.failed
        extras :=
          if options.fetchComments then [("Comments/post", toString commentsPerPost)]
          else []
        tokensPerItem := if options.use_llm then some tokensPerUrl else none
        batches := some totalBatches }
  let statusExtras :=
    ([if batchResult.rateLimitHits > 0 then
        some ("⚠️ " ++ toString batchResult.rateLimitHits ++ " rate limit retries")
      else none,
      if options.use_llm ∧ o.llmAvailable = false then
        some "⚠️ LLM unavailable (OPENROUTER_API_KEY not set)"
      else if acc.llmErrors > 0 then
        some ("⚠️ " ++ toString acc.llmErrors ++ " LLM extraction failures")
      else none] : List (Option String)).reduceOption
  let nextSteps :=
    ([if acc.successful > 0 then
        some "VERIFY WHAT REDDIT SAYS: Reddit comments are opinions, not facts. Cross-check the top claims: web_search(keywords=[\"specific claim from comments\", \"topic official benchmarks\", \"topic documentation\"]) — community consensus can be wrong. Verify before trusting."
      else none,
      if acc.successful > 0 then
        some "FOLLOW THE LINKS: Comments above likely mention specific tools, libraries, blog posts, or docs. Scrape them: scrape_links(urls=[...URLs from comments...], use_llm=true, what_to_extract=\"Extract evidence | data | recommendations | benchmarks\") — the gold is often in the links people share, not the comments themselves."
      else none,
      some "MISSING PERSPECTIVES? Look at the subreddits above. Are you only seeing one community\x27s view? search_reddit(queries=[\"topic\" + different subreddit angles, \"topic criticism\", \"topic alternatives\"]) — a single subreddit is an echo chamber. Get diverse opinions.",
      if acc.successful > 0 then
        some "ONLY THEN SYNTHESIZE: deep_research(questions=[\x7bquestion: \"Based on verified Reddit community findings...\"\x7d]) — synthesize AFTER you\x27ve verified claims and scraped referenced links. Raw Reddit comments without verification = unreliable conclusions."
      else none,
      if acc.failed > 0 then
        some ("RETRY FAILURES: " ++ toString acc.failed
          ++ " post(s) failed to fetch. Try them individually, or use scrape_links(urls=[...failed URLs...], use_llm=true) as a direct HTTP fallback.")
      else none] : List (Option String)).reduceOption
  let extraStatus :=
    if statusExtras.length > 0 then "\n" ++ String.intercalate " | " statusExtras
    else ""
  formatSuccess
    { title :=
        "Reddit Posts Fetched (" ++ toString acc.successful ++ "/"
          ++ toString urls.length ++ ")"
      summary := batchHeader ++ extraStatus
      data := String.intercalate "\n\n---\n\n" acc.contents
      nextSteps := nextSteps }

/-- handleGetRedditPosts: its whole body is inside a try/catch; it validates
the URL-count bounds, fetches the posts in batches, applies the optional
per-URL LLM extraction, and renders the 70/20/10 report. -/
def handleGetRedditPosts (urls : List String) (clientId clientSecret : String)
    (maxComments : Nat := 100) (options : GetRedditPostsOptions := {})
    (o : RedditOracle) : Except ApiErr (List Block) := do
  try
    if urls.length < REDDIT.MIN_POSTS then
      pure (redditMinPostsBlocks urls)
    else if urls.length > REDDIT.MAX_POSTS then
      pure (redditMaxPostsBlocks urls)
    else do
      let batchResult ← o.batchGetPosts
      pure (redditPostsSuccess urls options o batchResult)
  catch e =>
    let structuredError := classifyError e
    pure
      (formatError
        { code := structuredError.code
          message := "get_reddit_post failed: " ++ structuredError.message
          toolName := "get_reddit_post"
          retryable := some structuredError.retryable
          howToFix := some
            ["Verify REDDIT_CLIENT_ID and REDDIT_CLIENT_SECRET are set in environment variables",
             "Create a Reddit app at https://www.reddit.com/prefs/apps (select \"script\" type) if you haven\x27t already",
             if structuredError.retryable then
               "This is temporary — call get_reddit_post again with the same URLs in 3 seconds"
             else "Fix the credentials and retry"]
          alternatives := some
            ["scrape_links(urls=[...the same Reddit URLs...], use_llm=true, what_to_extract=\"Extract post title | post content | top comments | recommendations | consensus\") — scrape Reddit pages directly via HTTP as a fallback (no Reddit API credentials needed)",
             "web_search(keywords=[\"topic reddit discussion\", \"topic reddit recommendations\"]) — find cached/indexed Reddit content via Google",
             "deep_research(questions=[\x7bquestion: \"What are community opinions and recommendations for [topic]?\"\x7d]) — uses OpenRouter (different API), synthesizes community perspective from web sources"] })

-- ============================================================================
-- Search Reddit handler (same source file)
-- ============================================================================

/-- One Reddit search hit (Serper client shape, not in the provided
sources). -/
structure RedditSearchItem where
  title : String
  link : String
deriving DecidableEq

structure SearchRedditOracle where
  /-- `client.searchRedditMultiple` (inside the handler try/catch): a map
  from query to its result items. -/
  searchRedditMultiple : Except ApiErr (List (String × List RedditSearchItem))

/-- Modelled from the spec: `aggregateAndRankReddit`
(src/utils/url-aggregator.ts, not in the provided sources) aggregates the
per-query Reddit results with the same frequency/position scheme. -/
def aggregateAndRankReddit (results : List (String × List RedditSearchItem))
    (cap : Nat) : Aggregation :=
  aggregateAndRank
    (results.map (fun qr =>
      { keyword := qr.1
        results := qr.2.map (fun it => { title := it.title, link := it.link }) }))
    cap

/-- Modelled from the spec: `generateRedditEnhancedOutput`
(src/utils/url-aggregator.ts, not in the provided sources) renders the
uniform report with consensus highlighting and the per-query raw results. -/
def generateRedditEnhancedOutput (aggregation : Aggregation)
    (queries : List String)
    (results : List (String × List RedditSearchItem)) : List Block :=
  formatSuccess
    { title := "Reddit Search Results (" ++ toString queries.length ++ " queries)"
      summary :=
        generateEnhancedOutput
          (aggregation.rankedUrls.filter
            (fun u => aggregation.frequencyThreshold ≤ u.frequency))
          queries aggregation.totalUniqueUrls aggregation.frequencyThreshold
          aggregation.thresholdNote
      data :=
        String.intercalate "\n\n---\n\n"
          (results.map (fun qr =>
            "### \"" ++ qr.1 ++ "\"\n\n"
              ++ String.join (qr.2.map (fun it =>
                  "- [" ++ it.title ++ "](" ++ it.link ++ ")\n"))))
      nextSteps :=
        ["Fetch the top consensus posts with get_reddit_post(urls=[...]) to read full discussions",
         "Cross-check community claims with web_search before trusting them"] }

/-- handleSearchReddit: its whole body is inside a try/catch; zero total
results yield a NO_RESULTS error payload, otherwise the aggregated report is
returned. -/
def handleSearchReddit (queries : List String) (apiKey : String)
    (dateAfter : Option String := none) (o : SearchRedditOracle) :
    Except ApiErr (List Block) := do
  try
    let limited := queries.take 50
    let results ← o.searchRedditMultiple
    let totalResults : Nat := (results.map (fun r => r.2.length)).sum
    if totalResults = 0 then
      pure
        (formatError
          { code := ErrCode.NO_RESULTS
            message :=
              "Zero Reddit results across all " ++ toString limited.length
                ++ " queries. Your search terms may be too specific, misspelled, or the topic has no Reddit coverage."
            toolName := "search_reddit"
            howToFix := some
              ["Broaden your queries — replace multi-word phrases with single keywords (e.g., \"best React state management library 2025\" → \"React state management\")",
               "Double-check spelling of technical terms (e.g., \"PostgreSQL\" not \"PostgressQL\")",
               "Remove the date_after filter if you used one — it may be filtering out all results",
               "Call search_reddit again NOW with " ++ toString (max 3 limited.length)
                 ++ " simplified, broader queries targeting the same topic from different angles"]
            alternatives := some
              ["web_search(keywords=[\"topic best practices\", \"topic guide\", \"topic recommendations 2025\"]) — Reddit had nothing, so pivot to the broader web immediately",
               "scrape_links(urls=[...any URLs you already have...], use_llm=true) — if you have URLs from earlier searches, scrape them now instead of waiting",
               "deep_research(questions=[\x7bquestion: \"What are the key findings about [topic]?\"\x7d]) — use AI research to synthesize what you need"] })
    else
      pure (generateRedditEnhancedOutput (aggregateAndRankReddit results 3) limited results)
  catch e =>
    let structuredError := classifyError e
    pure
      (formatError
        { code := structuredError.code
          message := "search_reddit failed: " ++ structuredError.message
          toolName := "search_reddit"
          retryable := some structuredError.retryable
          howToFix := some
            ["Verify SERPER_API_KEY is set correctly in your environment variables",
             if structuredError.retryable then
               "This is a temporary error — call search_reddit again with the same queries in 3 seconds"
             else "Check the API key and fix configuration before retrying"]
          alternatives := some
            ["web_search(keywords=[\"topic recommendations\", \"topic best practices\", \"topic vs alternatives\"]) — same API but different endpoint, may still work",
             "deep_research(questions=[\x7bquestion: \"What does the community recommend for [topic]?\"\x7d]) — uses OpenRouter API (completely different service), will work even if Serper is down",
             "scrape_links(urls=[...any URLs you already have...], use_llm=true) — if you gathered URLs from earlier steps, scrape them NOW instead of waiting"] })

-- ============================================================================
-- Observation helpers for the theorems
-- ============================================================================

/-- The error payloads appearing in a block list. -/
def payloadsOf (bs : List Block) : List ErrorPayload :=
  bs.filterMap (fun b =>
    match b with
    | Block.error p => some p
    | _ => none)

/-- First error code of a block list, if any. -/
def errCodeOf (bs : List Block) : Option ErrCode :=
  (payloadsOf bs).head?.map (fun p => p.code)

/-- First error code of a non-throwing block-list handler result. -/
def blocksErrCode (r : Except ApiErr (List Block)) : Option ErrCode :=
  match r with
  | Except.ok bs => errCodeOf bs
  | Except.error _ => none

/-- First error code of a non-throwing deep-research result. -/
def drErrCode (r : Except ApiErr DeepResearchResponse) : Option ErrCode :=
  match r with
  | Except.ok resp => errCodeOf resp.content
  | Except.error _ => none

/-- The constituent roles of the report blocks. -/
inductive SectionTag
  | summary
  | data
  | nextSteps
  | meta
  | error
deriving DecidableEq

def tagOf : Block → SectionTag
  | Block.summary _ => SectionTag.summary
  | Block.data _ => SectionTag.data
  | Block.nextSteps _ => SectionTag.nextSteps
  | Block.meta _ => SectionTag.meta
  | Block.error _ => SectionTag.error

def sectionTags (bs : List Block) : List SectionTag := bs.map tagOf

/-- The uniform 70/20/10 shape: a summary section, a data section and a
next-steps section appear in this order. -/
def has702010 (bs : List Block) : Prop :=
  List.Sublist [SectionTag.summary, SectionTag.data, SectionTag.nextSteps]
    (sectionTags bs)

theorem has702010_formatSuccess (s : SuccessParts) : has702010 (formatSuccess s) := by
  unfold has702010 formatSuccess sectionTags
  simp only [List.map, tagOf]
  exact List.Sublist.cons₂ _ (List.Sublist.cons₂ _ (List.Sublist.cons₂ _
    (List.nil_sublist _)))

theorem errCodeOf_formatSuccess (s : SuccessParts) : errCodeOf (formatSuccess s) = none := rfl

theorem errCodeOf_formatError (p : ErrorPayload) : errCodeOf (formatError p) = some p.code := rfl

/-- The per-URL token allocation of get_reddit_post
(`use_llm ? Math.floor(TOKEN_BUDGETS.RESEARCH / urls.length) : 0`). -/
def redditTokensPerUrl (useLLM : Bool) (urlCount : Nat) : Nat :=
  if useLLM then TOKEN_BUDGETS.RESEARCH / urlCount else 0

def drTokensPerQuestion : DRStructured → Option Nat
  | DRStructured.ok _ _ _ tokensPerQuestion _ _ => some tokensPerQuestion
  | DRStructured.error _ => none

/-- The error payloads of each handler result. -/
def webSearchPayloads (r : Except ApiErr WebSearchResponse) : List ErrorPayload :=
  match r with
  | Except.ok resp => payloadsOf resp.content
  | Except.error _ => []

def scrapePayloads (r : Except ApiErr ScrapeResponse) : List ErrorPayload :=
  match r with
  | Except.ok resp => payloadsOf resp.content
  | Except.error _ => []

def drPayloads (r : Except ApiErr DeepResearchResponse) : List ErrorPayload :=
  match r with
  | Except.ok resp => payloadsOf resp.content
  | Except.error _ => []

def blockPayloads (r : Except ApiErr (List Block)) : List ErrorPayload :=
  match r with
  | Except.ok bs => payloadsOf bs
  | Except.error _ => []

theorem webSearchPayloads_pure (r : WebSearchResponse) :
    webSearchPayloads (pure r) = payloadsOf r.content := rfl

theorem scrapePayloads_pure (r : ScrapeResponse) :
    scrapePayloads (pure r) = payloadsOf r.content := rfl

theorem drPayloads_pure (r : DeepResearchResponse) :
    drPayloads (pure r) = payloadsOf r.content := rfl

theorem blockPayloads_pure (bs : List Block) :
    blockPayloads (pure bs) = payloadsOf bs := rfl

theorem payloadsOf_webSearchSuccess (p : WebSearchParams) (resp : SearchResponse) :
    payloadsOf (webSearchSuccess p resp).content = [] := rfl

theorem payloadsOf_scrapeLinksSuccess (p : ScrapeLinksParams) (o : ScrapeOracle)
    (validUrls invalidUrls : List String) :
    payloadsOf (scrapeLinksSuccess p o validUrls invalidUrls).content = [] := rfl

theorem payloadsOf_deepResearchSuccess (questions : List DRQuestion) (o : ResearchOracle) :
    payloadsOf (deepResearchSuccess questions o).content = [] := rfl

theorem payloadsOf_redditPostsSuccess (urls : List String) (options : GetRedditPostsOptions)
    (o : RedditOracle) (br : BatchGetPostsResult) :
    payloadsOf (redditPostsSuccess urls options o br) = [] := rfl

theorem payloadsOf_generateRedditEnhancedOutput (aggregation : Aggregation)
    (queries : List String) (results : List (String × List RedditSearchItem)) :
    payloadsOf (generateRedditEnhancedOutput aggregation queries results) = [] := rfl


theorem webSearchPayloads_ok (r : WebSearchResponse) :
    webSearchPayloads (Except.ok r) = payloadsOf r.content := rfl

theorem scrapePayloads_ok (r : ScrapeResponse) :
    scrapePayloads (Except.ok r) = payloadsOf r.content := rfl

theorem drPayloads_ok (r : DeepResearchResponse) :
    drPayloads (Except.ok r) = payloadsOf r.content := rfl

theorem blockPayloads_ok (bs : List Block) :
    blockPayloads (Except.ok bs) = payloadsOf bs := rfl

theorem drErrCode_ok (r : DeepResearchResponse) :
    drErrCode (Except.ok r) = errCodeOf r.content := rfl

theorem blocksErrCode_ok (bs : List Block) :
    blocksErrCode (Except.ok bs) = errCodeOf bs := rfl

-- ============================================================================
-- C9: position score
-- ============================================================================

theorem getPositionScore_table (p : Int) (h1 : 1 ≤ p) (h2 : p ≤ 10) :
    getPositionScore p = (CTR_WEIGHTS p).getD 0 := by
  unfold getPositionScore
  rw [if_pos ⟨h1, h2⟩]

theorem getPositionScore_linear (p : Int) (h : 10 < p) :
    getPositionScore p = max 0 (10 - ((p : ℚ) - 10) * 0.5) := by
  unfold getPositionScore
  rw [if_neg (by omega)]

theorem ctr_table_bounds (p : Int) (h1 : 1 ≤ p) (h2 : p ≤ 10) :
    (CTR_WEIGHTS p).getD 0 ≤ 100 ∧ (1256 / 100 : ℚ) ≤ (CTR_WEIGHTS p).getD 0 := by
  interval_cases p <;> norm_num [CTR_WEIGHTS]

theorem ctr_table_antitone (p q : Int) (h1 : 1 ≤ p) (hpq : p ≤ q) (h2 : q ≤ 10) :
    (CTR_WEIGHTS q).getD 0 ≤ (CTR_WEIGHTS p).getD 0 := by
  have h1q : 1 ≤ q := le_trans h1 hpq
  have h2p : p ≤ 10 := le_trans hpq h2
  interval_cases p <;> interval_cases q <;> norm_num [CTR_WEIGHTS]

theorem linear_score_le_ten (q : Int) (h : 10 < q) :
    getPositionScore q ≤ 10 := by
  rw [getPositionScore_linear q h]
  have hq : (10 : ℚ) ≤ (q : ℚ) := by exact_mod_cast le_of_lt h
  apply max_le (by norm_num)
  nlinarith

/-- C9: for every position p ≥ 1, getPositionScore p lies in [0, 100], and
getPositionScore is monotonically non-increasing in the position, including
across the boundary between the CTR table (positions 1-10) and the linear
decay above 10. -/
theorem getPositionScore_bounded_antitone :
    ∀ p q : Int, 1 ≤ p → p ≤ q →
      0 ≤ getPositionScore p ∧ getPositionScore p ≤ 100 ∧
        getPositionScore q ≤ getPositionScore p := by
  intro p q hp hpq
  by_cases hp10 : p ≤ 10
  · have hb := ctr_table_bounds p hp hp10
    have hscore := getPositionScore_table p hp hp10
    refine ⟨?_, ?_, ?_⟩
    · rw [hscore]; linarith [hb.2]
    · rw [hscore]; exact hb.1
    · by_cases hq10 : q ≤ 10
      · rw [hscore, getPositionScore_table q (le_trans hp hpq) hq10]
        exact ctr_table_antitone p q hp hpq hq10
      · have hlin := linear_score_le_ten q (by omega)
        rw [hscore]
        calc getPositionScore q ≤ 10 := hlin
          _ ≤ 1256 / 100 := by norm_num
          _ ≤ (CTR_WEIGHTS p).getD 0 := hb.2
  · have hq10 : 10 < q := by omega
    have hp10lt : 10 < p := by omega
    refine ⟨?_, ?_, ?_⟩
    · rw [getPositionScore_linear p hp10lt]; exact le_max_left _ _
    · calc getPositionScore p ≤ 10 := linear_score_le_ten p hp10lt
        _ ≤ 100 := by norm_num
    · rw [getPositionScore_linear p hp10lt, getPositionScore_linear q hq10]
      apply max_le_max le_rfl
      have hc : (p : ℚ) ≤ (q : ℚ) := by exact_mod_cast hpq
      nlinarith

/-- Witness for C9 at the table/linear boundary positions 10 and 11. -/
theorem getPositionScore_bounded_antitone_witness :
    (1 : Int) ≤ 10 ∧ (10 : Int) ≤ 11 ∧
      (0 ≤ getPositionScore 10 ∧ getPositionScore 10 ≤ 100 ∧
        getPositionScore 11 ≤ getPositionScore 10) :=
  ⟨by decide, by decide, getPositionScore_bounded_antitone 10 11 (by decide) (by decide)⟩

-- ============================================================================
-- C10: markdown cleaner on non-HTML input
-- ============================================================================

theorem contains_false_of_not_mem {l : List Char} {c : Char}
    (h : l.contains c = false) : c ∉ l := by
  intro hmem
  rw [List.contains, List.elem_eq_mem, decide_eq_false_iff_not] at h
  exact h hmem

/-- C10: on every non-empty input without a `<` character, processContent
returns the input with leading and trailing whitespace trimmed, and is
consequently idempotent on such inputs. -/
theorem processContent_trims_and_idempotent :
    ∀ (m : MarkdownCleaner) (s : List Char),
      s ≠ [] → s.contains '<' = false →
      m.processContent s = trimChars s ∧
        m.processContent (m.processContent s) = m.processContent s := by
  intro m s hne hlt
  have h1 : m.processContent s = trimChars s := by
    unfold MarkdownCleaner.processContent
    rw [if_neg hne, if_pos hlt]
  refine ⟨h1, ?_⟩
  rw [h1]
  by_cases ht : trimChars s = []
  · rw [ht]
    unfold MarkdownCleaner.processContent
    rw [if_pos rfl]
  · have hmem : ('<' : Char) ∉ trimChars s := fun hm =>
      contains_false_of_not_mem hlt (mem_of_mem_trimChars hm)
    have hlt2 : (trimChars s).contains '<' = false := by
      rw [List.contains, List.elem_eq_mem, decide_eq_false_iff_not]
      exact hmem
    calc m.processContent (trimChars s) = trimChars (trimChars s) := by
          unfold MarkdownCleaner.processContent
          rw [if_neg ht, if_pos hlt2]
      _ = trimChars s := trimChars_idempotent s

-- ============================================================================
-- C1: handlers never propagate exceptions
-- ============================================================================

/-- A handler result is a returned value (not a propagated exception). -/
def returnsValue {ε α : Type} : Except ε α → Bool
  | Except.ok _ => true
  | Except.error _ => false

theorem except_bind_ok {ε α β : Type} (a : α) (f : α → Except ε β) :
    (Except.ok a >>= f : Except ε β) = f a := rfl

theorem except_tryCatch_ok {ε α : Type} (a : α) (h : ε → Except ε α) :
    tryCatch (Except.ok a) h = Except.ok a := rfl

theorem except_tryCatch_error {ε α : Type} (e : ε) (h : ε → Except ε α) :
    tryCatch (Except.error e : Except ε α) h = h e := rfl

theorem except_tryCatch_pure {ε α : Type} (a : α) (h : ε → Except ε α) :
    tryCatch (pure a : Except ε α) h = pure a := rfl

theorem returnsValue_pure {ε α : Type} (a : α) :
    returnsValue (pure a : Except ε α) = true := rfl

theorem returnsValue_ok {ε α : Type} (a : α) :
    returnsValue (Except.ok a : Except ε α) = true := rfl

theorem except_bind_error {ε α β : Type} (e : ε) (f : α → Except ε β) :
    (Except.error e >>= f : Except ε β) = Except.error e := rfl

theorem except_pure_eq_ok {ε α : Type} (a : α) :
    (pure a : Except ε α) = Except.ok a := rfl

theorem payloadsOf_formatSuccess (s : SuccessParts) : payloadsOf (formatSuccess s) = [] := rfl

theorem payloadsOf_formatError (p : ErrorPayload) : payloadsOf (formatError p) = [p] := rfl

theorem drErrCode_pure (r : DeepResearchResponse) :
    drErrCode (pure r) = errCodeOf r.content := rfl

theorem blocksErrCode_pure (bs : List Block) :
    blocksErrCode (pure bs) = errCodeOf bs := rfl

theorem handleWebSearch_total (p : WebSearchParams) (o : WebSearchOracle) :
    returnsValue (handleWebSearch p o) = true := by
  unfold handleWebSearch
  cases o.searchMultiple <;> rfl

theorem handleScrapeLinks_total (p : ScrapeLinksParams) (o : ScrapeOracle) :
    returnsValue (handleScrapeLinks p o) = true := by
  unfold handleScrapeLinks
  by_cases h0 : p.urls.length = 0 <;>
    by_cases h1 : (p.urls.filter o.isValidUrl).length = 0 <;>
      cases hI : o.clientInit <;> (simp [h0, h1, hI]; try rfl)

theorem handleDeepResearch_total (p : DeepResearchParams) (o : ResearchOracle) :
    returnsValue (handleDeepResearch p o) = true := by
  unfold handleDeepResearch
  by_cases h0 : p.questions.length < MIN_QUESTIONS <;>
    by_cases h1 : p.questions.length > MAX_QUESTIONS <;>
      cases hI : o.clientInit <;> (simp [h0, h1, hI]; try rfl)

theorem handleSearchReddit_total (queries : List String) (apiKey : String)
    (dateAfter : Option String) (o : SearchRedditOracle) :
    returnsValue (handleSearchReddit queries apiKey dateAfter o) = true := by
  unfold handleSearchReddit
  cases hs : o.searchRedditMultiple with
  | error e => rfl
  | ok results =>
    by_cases ht : ((results.map (fun r => r.2.length)).sum : Nat) = 0 <;>
      simp [except_bind_ok, except_tryCatch_pure, ht, returnsValue_pure]

theorem handleGetRedditPosts_total (urls : List String) (clientId clientSecret : String)
    (maxComments : Nat) (options : GetRedditPostsOptions) (o : RedditOracle) :
    returnsValue (handleGetRedditPosts urls clientId clientSecret maxComments options o)
      = true := by
  unfold handleGetRedditPosts
  by_cases h0 : urls.length < REDDIT.MIN_POSTS <;>
    by_cases h1 : urls.length > REDDIT.MAX_POSTS <;>
      cases hb : o.batchGetPosts <;> (simp [h0, h1, hb]; try rfl)

/-- C1: for every input and every external-call failure outcome, each of the
five tool handlers returns a structured result value; no exception
propagates to the caller (a propagated exception would surface as
`Except.error` of the embedding). -/
theorem handlers_never_throw :
    (∀ (p : WebSearchParams) (o : WebSearchOracle),
        returnsValue (handleWebSearch p o) = true)
    ∧ (∀ (p : ScrapeLinksParams) (o : ScrapeOracle),
        returnsValue (handleScrapeLinks p o) = true)
    ∧ (∀ (p : DeepResearchParams) (o : ResearchOracle),
        returnsValue (handleDeepResearch p o) = true)
    ∧ (∀ (queries : List String) (apiKey : String) (dateAfter : Option String)
        (o : SearchRedditOracle),
        returnsValue (handleSearchReddit queries apiKey dateAfter o) = true)
    ∧ (∀ (urls : List String) (clientId clientSecret : String) (maxComments : Nat)
        (options : GetRedditPostsOptions) (o : RedditOracle),
        returnsValue (handleGetRedditPosts urls clientId clientSecret maxComments options o)
          = true) :=
  ⟨handleWebSearch_total, handleScrapeLinks_total, handleDeepResearch_total,
    handleSearchReddit_total, handleGetRedditPosts_total⟩

-- ============================================================================
-- C2: batch-size bounds validation
-- ============================================================================

/-- C2: handleDeepResearch returns a MIN_QUESTIONS error payload exactly when
fewer than 1 question is passed and a MAX_QUESTIONS payload exactly when more
than 10 are; handleGetRedditPosts returns a MIN_POSTS payload exactly when
fewer than 2 URLs are passed and a MAX_POSTS payload exactly when more than
50 are — for every oracle outcome. -/
theorem bounds_error_payloads :
    (∀ (p : DeepResearchParams) (o : ResearchOracle),
        (drErrCode (handleDeepResearch p o) = some ErrCode.MIN_QUESTIONS ↔
          p.questions.length < 1)
        ∧ (drErrCode (handleDeepResearch p o) = some ErrCode.MAX_QUESTIONS ↔
          p.questions.length > 10))
    ∧ (∀ (urls : List String) (clientId clientSecret : String) (maxComments : Nat)
        (options : GetRedditPostsOptions) (o : RedditOracle),
        (blocksErrCode (handleGetRedditPosts urls clientId clientSecret maxComments options o)
            = some ErrCode.MIN_POSTS ↔ urls.length < 2)
        ∧ (blocksErrCode (handleGetRedditPosts urls clientId clientSecret maxComments options o)
            = some ErrCode.MAX_POSTS ↔ urls.length > 50)) := by
  constructor
  · intro p o
    by_cases h0 : p.questions.length < 1 <;>
      by_cases h1 : p.questions.length > 10 <;>
        cases hI : o.clientInit <;>
          (simp [handleDeepResearch, MIN_QUESTIONS, MAX_QUESTIONS, h0, h1, hI,
            drErrCode_pure, drErrCode_ok, errCodeOf, classifyError, payloadsOf_formatError,
            payloadsOf_deepResearchSuccess,
            deepResearchMinQuestionsResponse, deepResearchMaxQuestionsResponse,
            deepResearchInitFailedResponse] <;> omega)
  · intro urls clientId clientSecret maxComments options o
    by_cases h0 : urls.length < 2 <;>
      by_cases h1 : urls.length > 50 <;>
        cases hb : o.batchGetPosts <;>
          (simp [handleGetRedditPosts, REDDIT, h0, h1, hb,
            blocksErrCode_pure, blocksErrCode_ok, errCodeOf, classifyError, payloadsOf_formatError,
            payloadsOf_redditPostsSuccess,
            redditMinPostsBlocks, redditMaxPostsBlocks,
            except_bind_ok, except_bind_error, except_tryCatch_pure,
            except_tryCatch_ok, except_tryCatch_error] <;> omega)

-- ============================================================================
-- C3: error payload structure (corrected)
-- ============================================================================

/-- Concrete input showing a payload without alternatives: 51 URLs exceed the
MAX_POSTS bound and the MAX_POSTS payload carries no alternative tool
suggestions. -/
def c3Urls : List String := List.replicate 51 "https://www.reddit.com/r/lean/comments/1/a/"

def c3Oracle : RedditOracle :=
  { batchGetPosts := Except.error {}
    llmAvailable := false
    llm := fun _ _ => { processed := false, content := "" } }

def c3Result : Except ApiErr (List Block) :=
  handleGetRedditPosts c3Urls "" "" 100 {} c3Oracle

/-- First error payload of a block-list handler result. -/
def firstPayload (r : Except ApiErr (List Block)) : Option ErrorPayload :=
  match r with
  | Except.ok bs => (payloadsOf bs).head?
  | Except.error _ => none

/-- C3 counterexample: the MAX_POSTS error payload returned for 51 URLs
carries no alternative tool suggestions (and no retry hint), refuting the
claim that every error payload carries all five fields. -/
theorem error_payload_missing_alternatives :
    (firstPayload c3Result).map (fun pl => pl.code) = some ErrCode.MAX_POSTS
    ∧ (firstPayload c3Result).map (fun pl => pl.alternatives) = some none
    ∧ (firstPayload c3Result).map (fun pl => pl.retryable) = some none := by
  refine ⟨rfl, rfl, rfl⟩

theorem append_ne_empty (a b : String) (h : a ≠ "") : a ++ b ≠ "" := by
  intro hc
  apply h
  have hl := congrArg String.length hc
  rw [String.length_append] at hl
  have hz : a.length = 0 := by
    have hh : ("" : String).length = 0 := rfl
    omega
  cases a with
  | mk data =>
    cases data with
    | nil => rfl
    | cons c cs =>
      exfalso
      have hc1 : (String.mk (c :: cs)).length = cs.length + 1 := by
        show (c :: cs).length = cs.length + 1
        simp
      omega

set_option maxRecDepth 8192 in
/-- C3 (amended): every error payload returned by a tool handler carries an
error code and a non-empty message; the retry hint, remediation steps and
alternative suggestions are optional fields that some payloads omit. -/
theorem error_payloads_carry_code_and_message :
    (∀ (p : WebSearchParams) (o : WebSearchOracle),
        ((webSearchPayloads (handleWebSearch p o)).all
          (fun pl => pl.message != "")) = true)
    ∧ (∀ (p : ScrapeLinksParams) (o : ScrapeOracle),
        ((scrapePayloads (handleScrapeLinks p o)).all
          (fun pl => pl.message != "")) = true)
    ∧ (∀ (p : DeepResearchParams) (o : ResearchOracle),
        ((drPayloads (handleDeepResearch p o)).all
          (fun pl => pl.message != "")) = true)
    ∧ (∀ (queries : List String) (apiKey : String) (dateAfter : Option String)
        (o : SearchRedditOracle),
        ((blockPayloads (handleSearchReddit queries apiKey dateAfter o)).all
          (fun pl => pl.message != "")) = true)
    ∧ (∀ (urls : List String) (clientId clientSecret : String) (maxComments : Nat)
        (options : GetRedditPostsOptions) (o : RedditOracle),
        ((blockPayloads (handleGetRedditPosts urls clientId clientSecret maxComments options o)).all
          (fun pl => pl.message != "")) = true) := by
  refine ⟨?_, ?_, ?_, ?_, ?_⟩
  · intro p o
    cases hs : o.searchMultiple <;>
      (simp [handleWebSearch, hs, webSearchPayloads_pure, webSearchPayloads_ok, webSearchError,
        payloadsOf_webSearchSuccess, payloadsOf_formatError,
        except_tryCatch_pure, except_tryCatch_ok, except_bind_ok,
        except_bind_error, except_tryCatch_error]) <;>
      (repeat apply append_ne_empty) <;> decide
  · intro p o
    by_cases h0 : p.urls.length = 0 <;>
      by_cases h1 : (p.urls.filter o.isValidUrl).length = 0 <;>
        cases hI : o.clientInit <;>
          ((simp [handleScrapeLinks, h0, h1, hI, scrapePayloads_pure, scrapePayloads_ok,
            payloadsOf_scrapeLinksSuccess,
            createScrapeErrorResponse, payloadsOf_formatError]) <;>
           (repeat apply append_ne_empty) <;> decide)
  · intro p o
    by_cases h0 : p.questions.length < 1 <;>
      by_cases h1 : p.questions.length > 10 <;>
        cases hI : o.clientInit <;>
          ((simp [handleDeepResearch, MIN_QUESTIONS, MAX_QUESTIONS, h0, h1, hI,
            drPayloads_pure, drPayloads_ok, payloadsOf_deepResearchSuccess,
            deepResearchMinQuestionsResponse, deepResearchMaxQuestionsResponse,
            deepResearchInitFailedResponse, payloadsOf_formatError]) <;>
           (repeat apply append_ne_empty) <;> decide)
  · intro queries apiKey dateAfter o
    cases hs : o.searchRedditMultiple with
    | error e =>
      (simp [handleSearchReddit, hs, blockPayloads_pure, blockPayloads_ok, payloadsOf_formatError,
        except_bind_error, except_tryCatch_error]) <;>
        (repeat apply append_ne_empty) <;> decide
    | ok results =>
      by_cases ht : ((results.map (fun r => r.2.length)).sum : Nat) = 0 <;>
        ((simp [handleSearchReddit, hs, ht, blockPayloads_pure, blockPayloads_ok,
          payloadsOf_generateRedditEnhancedOutput, payloadsOf_formatError,
          except_bind_ok, except_tryCatch_pure, except_tryCatch_ok]) <;>
         (repeat apply append_ne_empty) <;> decide)
  · intro urls clientId clientSecret maxComments options o
    by_cases h0 : urls.length < REDDIT.MIN_POSTS <;>
      by_cases h1 : urls.length > REDDIT.MAX_POSTS <;>
        cases hb : o.batchGetPosts <;>
          ((simp [handleGetRedditPosts, h0, h1, hb, blockPayloads_pure, blockPayloads_ok,
            redditMinPostsBlocks, redditMaxPostsBlocks,
            payloadsOf_redditPostsSuccess, payloadsOf_formatError,
            except_bind_ok, except_bind_error, except_tryCatch_pure,
            except_tryCatch_ok, except_tryCatch_error]) <;>
           (repeat apply append_ne_empty) <;> decide)

/-- Witness for C10 on the concrete input "  hi  ". -/
theorem processContent_trims_and_idempotent_witness :
    ("  hi  ".toList ≠ [] ∧ "  hi  ".toList.contains '<' = false) ∧
      ((MarkdownCleaner.mk id).processContent "  hi  ".toList = trimChars "  hi  ".toList ∧
        (MarkdownCleaner.mk id).processContent
            ((MarkdownCleaner.mk id).processContent "  hi  ".toList) =
          (MarkdownCleaner.mk id).processContent "  hi  ".toList) :=
  ⟨⟨by decide, by decide⟩,
    processContent_trims_and_idempotent (MarkdownCleaner.mk id) "  hi  ".toList
      (by decide) (by decide)⟩


-- ============================================================================
-- C4: proportional token-budget allocation
-- ============================================================================

/-- C4: for every batch of N valid items (N ≥ 1) the per-item token
allocation is the floor of the fixed budget divided by N, so N times the
allocation never exceeds the budget; this is the allocation scrape_links uses
under TOKEN_BUDGETS.SCRAPER, deep_research under TOKEN_BUDGETS.RESEARCH, and
get_reddit_post LLM extraction under TOKEN_BUDGETS.RESEARCH. -/
theorem token_budget_allocation :
    (∀ n : Nat, 1 ≤ n →
      calculateTokenAllocation n TOKEN_BUDGETS.SCRAPER = TOKEN_BUDGETS.SCRAPER / n
      ∧ n * calculateTokenAllocation n TOKEN_BUDGETS.SCRAPER ≤ TOKEN_BUDGETS.SCRAPER
      ∧ calculateTokenAllocation n TOKEN_BUDGETS.RESEARCH = TOKEN_BUDGETS.RESEARCH / n
      ∧ n * calculateTokenAllocation n TOKEN_BUDGETS.RESEARCH ≤ TOKEN_BUDGETS.RESEARCH
      ∧ redditTokensPerUrl true n = TOKEN_BUDGETS.RESEARCH / n
      ∧ n * redditTokensPerUrl true n ≤ TOKEN_BUDGETS.RESEARCH)
    ∧ (∀ (p : ScrapeLinksParams) (o : ScrapeOracle) (validUrls invalidUrls : List String),
        (scrapeLinksSuccess p o validUrls invalidUrls).metadata.tokens_per_url
          = some (calculateTokenAllocation validUrls.length TOKEN_BUDGETS.SCRAPER))
    ∧ (∀ (questions : List DRQuestion) (o : ResearchOracle),
        drTokensPerQuestion (deepResearchSuccess questions o).structuredContent
          = some (calculateTokenAllocation questions.length TOKEN_BUDGETS.RESEARCH)) := by
  refine ⟨?_, ?_, ?_⟩
  · intro n hn
    have hmul : ∀ b : Nat, n * (b / n) ≤ b := fun b => by
      rw [Nat.mul_comm]
      exact Nat.div_mul_le_self b n
    exact ⟨rfl, hmul _, rfl, hmul _, rfl, hmul _⟩
  · intro p o validUrls invalidUrls
    rfl
  · intro questions o
    rfl

/-- Witness for C4 at a concrete batch size of 3 items. -/
theorem token_budget_allocation_witness :
    1 ≤ 3 ∧
      (calculateTokenAllocation 3 TOKEN_BUDGETS.SCRAPER = TOKEN_BUDGETS.SCRAPER / 3
      ∧ 3 * calculateTokenAllocation 3 TOKEN_BUDGETS.SCRAPER ≤ TOKEN_BUDGETS.SCRAPER
      ∧ calculateTokenAllocation 3 TOKEN_BUDGETS.RESEARCH = TOKEN_BUDGETS.RESEARCH / 3
      ∧ 3 * calculateTokenAllocation 3 TOKEN_BUDGETS.RESEARCH ≤ TOKEN_BUDGETS.RESEARCH
      ∧ redditTokensPerUrl true 3 = TOKEN_BUDGETS.RESEARCH / 3
      ∧ 3 * redditTokensPerUrl true 3 ≤ TOKEN_BUDGETS.RESEARCH) :=
  ⟨by decide, token_budget_allocation.1 3 (by decide)⟩

-- ============================================================================
-- C8: scrape accounting invariant
-- ============================================================================

theorem pass1_counts (clean : String → String) :
    ∀ (rs : List ScrapeResult) (acc : Pass1Acc),
      (rs.foldl (pass1Step clean) acc).successful + (rs.foldl (pass1Step clean) acc).failed
        = acc.successful + acc.failed + rs.length := by
  intro rs
  induction rs with
  | nil => intro acc; simp
  | cons r rest ih =>
    intro acc
    simp only [List.foldl_cons, List.length_cons]
    rw [ih]
    unfold pass1Step
    by_cases hf : isScrapeFailure r <;> simp [hf] <;> omega

/-- C8: every handleScrapeLinks response (success or error) satisfies
successful + failed = total_urls with total_urls the request URL count; every
input URL is accounted exactly once. -/
theorem scrape_accounting :
    ∀ (p : ScrapeLinksParams) (o : ScrapeOracle) (r : ScrapeResponse),
      handleScrapeLinks p o = Except.ok r →
      r.metadata.successful + r.metadata.failed = r.metadata.total_urls
      ∧ r.metadata.total_urls = p.urls.length := by
  intro p o r hr
  unfold handleScrapeLinks at hr
  by_cases h0 : p.urls.length = 0
  · simp [h0, createScrapeErrorResponse, except_pure_eq_ok, except_bind_ok] at hr
    subst hr
    refine ⟨rfl, ?_⟩
    show (0 : Nat) = p.urls.length
    omega
  · by_cases h1 : (p.urls.filter o.isValidUrl).length = 0
    · simp [h0, h1, createScrapeErrorResponse, except_pure_eq_ok, except_bind_ok] at hr
      subst hr
      exact ⟨by simp, rfl⟩
    · cases hI : o.clientInit with
      | error e =>
        simp [h0, h1, hI, createScrapeErrorResponse, except_pure_eq_ok, except_bind_ok] at hr
        subst hr
        exact ⟨by simp, rfl⟩
      | ok u =>
        simp [h0, h1, hI, except_pure_eq_ok, except_bind_ok] at hr
        subst hr
        refine ⟨?_, rfl⟩
        have hkey := pass1_counts (processContentS o.turndown)
          ((p.urls.filter o.isValidUrl).map o.scrape)
          { failed := (p.urls.filter (fun u => !o.isValidUrl u)).length
            contents := (p.urls.filter (fun u => !o.isValidUrl u)).map
              (fun u => "## " ++ u ++ "\n\n❌ Invalid URL format") }
        have hpart := List.length_eq_length_filter_add (l := p.urls) o.isValidUrl
        show (((p.urls.filter o.isValidUrl).map o.scrape).foldl
            (pass1Step (processContentS o.turndown))
            { failed := (p.urls.filter (fun u => !o.isValidUrl u)).length
              contents := (p.urls.filter (fun u => !o.isValidUrl u)).map
                (fun u => "## " ++ u ++ "\n\n❌ Invalid URL format") }).successful
          + (((p.urls.filter o.isValidUrl).map o.scrape).foldl
            (pass1Step (processContentS o.turndown))
            { failed := (p.urls.filter (fun u => !o.isValidUrl u)).length
              contents := (p.urls.filter (fun u => !o.isValidUrl u)).map
                (fun u => "## " ++ u ++ "\n\n❌ Invalid URL format") }).failed
          = p.urls.length
        rw [hkey]
        simp only [List.length_map]
        omega

def c8Params : ScrapeLinksParams :=
  { urls := ["https://a.example/", "not a url", "https://b.example/"] }

def c8Oracle : ScrapeOracle :=
  { isValidUrl := fun u => u != "not a url"
    clientInit := Except.ok ()
    scrape := fun u => { url := u, content := "hello", statusCode := 200, credits := 1 }
    llmAvailable := false
    llm := fun _ _ => { processed := false, content := "" }
    turndown := id
    removeMetaTags := id }

def c8Response : ScrapeResponse :=
  scrapeLinksSuccess c8Params c8Oracle (c8Params.urls.filter c8Oracle.isValidUrl)
    (c8Params.urls.filter (fun u => !c8Oracle.isValidUrl u))

/-- Witness for C8 on a concrete three-URL request with one invalid URL. -/
theorem scrape_accounting_witness :
    handleScrapeLinks c8Params c8Oracle = Except.ok c8Response ∧
      (c8Response.metadata.successful + c8Response.metadata.failed
          = c8Response.metadata.total_urls
        ∧ c8Response.metadata.total_urls = c8Params.urls.length) :=
  ⟨rfl, scrape_accounting c8Params c8Oracle c8Response rfl⟩


-- ============================================================================
-- C5: uniform 70/20/10 report on success
-- ============================================================================

theorem has702010_blocks (a b : String) (c : List String)
    (d : List (String × String)) :
    has702010 [Block.summary a, Block.data b, Block.nextSteps c, Block.meta d] := by
  unfold has702010 sectionTags
  simp only [List.map, tagOf]
  exact List.Sublist.cons₂ _ (List.Sublist.cons₂ _ (List.Sublist.cons₂ _
    (List.nil_sublist _)))

/-- C5: every successful invocation of each tool handler renders the uniform
70/20/10 report: a summary section, then a data section, then a next-steps
section, in that order. -/
theorem success_reports_702010 :
    (∀ (p : WebSearchParams) (o : WebSearchOracle) (resp : SearchResponse),
      o.searchMultiple = Except.ok resp →
      handleWebSearch p o = Except.ok (webSearchSuccess p resp)
      ∧ has702010 (webSearchSuccess p resp).content)
    ∧ (∀ (p : ScrapeLinksParams) (o : ScrapeOracle),
      p.urls.length ≠ 0 → (p.urls.filter o.isValidUrl).length ≠ 0 →
      o.clientInit = Except.ok () →
      handleScrapeLinks p o = Except.ok
        (scrapeLinksSuccess p o (p.urls.filter o.isValidUrl)
          (p.urls.filter (fun u => !o.isValidUrl u)))
      ∧ has702010 (scrapeLinksSuccess p o (p.urls.filter o.isValidUrl)
          (p.urls.filter (fun u => !o.isValidUrl u))).content)
    ∧ (∀ (p : DeepResearchParams) (o : ResearchOracle),
      MIN_QUESTIONS ≤ p.questions.length → p.questions.length ≤ MAX_QUESTIONS →
      o.clientInit = Except.ok () →
      handleDeepResearch p o = Except.ok (deepResearchSuccess p.questions o)
      ∧ has702010 (deepResearchSuccess p.questions o).content)
    ∧ (∀ (queries : List String) (apiKey : String) (dateAfter : Option String)
        (o : SearchRedditOracle) (results : List (String × List RedditSearchItem)),
      o.searchRedditMultiple = Except.ok results →
      ((results.map (fun r => r.2.length)).sum : Nat) ≠ 0 →
      handleSearchReddit queries apiKey dateAfter o = Except.ok
        (generateRedditEnhancedOutput (aggregateAndRankReddit results 3)
          (queries.take 50) results)
      ∧ has702010 (generateRedditEnhancedOutput (aggregateAndRankReddit results 3)
          (queries.take 50) results))
    ∧ (∀ (urls : List String) (clientId clientSecret : String) (maxComments : Nat)
        (options : GetRedditPostsOptions) (o : RedditOracle) (br : BatchGetPostsResult),
      REDDIT.MIN_POSTS ≤ urls.length → urls.length ≤ REDDIT.MAX_POSTS →
      o.batchGetPosts = Except.ok br →
      handleGetRedditPosts urls clientId clientSecret maxComments options o
        = Except.ok (redditPostsSuccess urls options o br)
      ∧ has702010 (redditPostsSuccess urls options o br)) := by
  refine ⟨?_, ?_, ?_, ?_, ?_⟩
  · intro p o resp hs
    refine ⟨?_, has702010_blocks _ _ _ _⟩
    unfold handleWebSearch
    rw [hs]
    rfl
  · intro p o h0 h1 hI
    refine ⟨?_, has702010_formatSuccess _⟩
    unfold handleScrapeLinks
    simp [h0, h1, hI, except_pure_eq_ok, except_bind_ok]
  · intro p o h0 h1 hI
    have h0n : ¬ p.questions.length < MIN_QUESTIONS := by omega
    have h1n : ¬ p.questions.length > MAX_QUESTIONS := by omega
    refine ⟨?_, has702010_formatSuccess _⟩
    unfold handleDeepResearch
    simp [h0n, h1n, hI, except_pure_eq_ok, except_bind_ok]
  · intro queries apiKey dateAfter o results hs ht
    refine ⟨?_, has702010_formatSuccess _⟩
    unfold handleSearchReddit
    rw [hs]
    simp [ht, except_bind_ok, except_tryCatch_pure, except_tryCatch_ok,
      except_pure_eq_ok]
  · intro urls clientId clientSecret maxComments options o br h0 h1 hb
    have h0n : ¬ urls.length < REDDIT.MIN_POSTS := by omega
    have h1n : ¬ urls.length > REDDIT.MAX_POSTS := by omega
    refine ⟨?_, has702010_formatSuccess _⟩
    unfold handleGetRedditPosts
    simp [h0n, h1n, hb, except_bind_ok, except_tryCatch_pure, except_tryCatch_ok,
      except_pure_eq_ok]

def c5WebParams : WebSearchParams := { keywords := ["k"] }

def c5SearchResp : SearchResponse :=
  { totalKeywords := 1
    searches := [{ keyword := "k", results := [{ title := "t", link := "https://x.example/" }] }] }

def c5WebOracle : WebSearchOracle := { searchMultiple := Except.ok c5SearchResp }

def c5DRParams : DeepResearchParams := { questions := [{ question := "q" }] }

def c5DROracle : ResearchOracle :=
  { clientInit := Except.ok ()
    formatAttachments := fun _ => Except.ok ""
    research := fun _ => Except.ok { content := "answer" } }

def c5SRResults : List (String × List RedditSearchItem) :=
  [("q", [{ title := "t", link := "https://reddit.example/" }])]

def c5SROracle : SearchRedditOracle := { searchRedditMultiple := Except.ok c5SRResults }

def c5RUrls : List String := ["https://reddit.com/a", "https://reddit.com/b"]

def c5Batch : BatchGetPostsResult :=
  { results :=
      [("https://reddit.com/a",
        Except.ok
          { post :=
              { title := "T", subreddit := "s", author := "a", score := 1
                commentCount := 0, url := "https://reddit.com/a" }
            comments := []
            allocatedComments := 0 })
       , ("https://reddit.com/b", Except.error {})] }

def c5ROracle : RedditOracle :=
  { batchGetPosts := Except.ok c5Batch
    llmAvailable := false
    llm := fun _ _ => { processed := false, content := "" } }

/-- Witness for C5: concrete successful invocations of all five handlers. -/
theorem success_reports_702010_witness :
    (c5WebOracle.searchMultiple = Except.ok c5SearchResp
      ∧ (handleWebSearch c5WebParams c5WebOracle
            = Except.ok (webSearchSuccess c5WebParams c5SearchResp)
        ∧ has702010 (webSearchSuccess c5WebParams c5SearchResp).content))
    ∧ ((c8Params.urls.length ≠ 0 ∧ (c8Params.urls.filter c8Oracle.isValidUrl).length ≠ 0
        ∧ c8Oracle.clientInit = Except.ok ())
      ∧ (handleScrapeLinks c8Params c8Oracle = Except.ok
          (scrapeLinksSuccess c8Params c8Oracle (c8Params.urls.filter c8Oracle.isValidUrl)
            (c8Params.urls.filter (fun u => !c8Oracle.isValidUrl u)))
        ∧ has702010 (scrapeLinksSuccess c8Params c8Oracle
            (c8Params.urls.filter c8Oracle.isValidUrl)
            (c8Params.urls.filter (fun u => !c8Oracle.isValidUrl u))).content))
    ∧ ((MIN_QUESTIONS ≤ c5DRParams.questions.length
        ∧ c5DRParams.questions.length ≤ MAX_QUESTIONS
        ∧ c5DROracle.clientInit = Except.ok ())
      ∧ (handleDeepResearch c5DRParams c5DROracle
            = Except.ok (deepResearchSuccess c5DRParams.questions c5DROracle)
        ∧ has702010 (deepResearchSuccess c5DRParams.questions c5DROracle).content))
    ∧ ((c5SROracle.searchRedditMultiple = Except.ok c5SRResults
        ∧ ((c5SRResults.map (fun r => r.2.length)).sum : Nat) ≠ 0)
      ∧ (handleSearchReddit ["q"] "" none c5SROracle = Except.ok
          (generateRedditEnhancedOutput (aggregateAndRankReddit c5SRResults 3)
            (["q"].take 50) c5SRResults)
        ∧ has702010 (generateRedditEnhancedOutput (aggregateAndRankReddit c5SRResults 3)
            (["q"].take 50) c5SRResults)))
    ∧ ((REDDIT.MIN_POSTS ≤ c5RUrls.length ∧ c5RUrls.length ≤ REDDIT.MAX_POSTS
        ∧ c5ROracle.batchGetPosts = Except.ok c5Batch)
      ∧ (handleGetRedditPosts c5RUrls "" "" 100 {} c5ROracle
            = Except.ok (redditPostsSuccess c5RUrls {} c5ROracle c5Batch)
        ∧ has702010 (redditPostsSuccess c5RUrls {} c5ROracle c5Batch))) :=
  ⟨⟨rfl, success_reports_702010.1 c5WebParams c5WebOracle c5SearchResp rfl⟩,
   ⟨⟨by decide, by decide, rfl⟩,
     success_reports_702010.2.1 c8Params c8Oracle (by decide) (by decide) rfl⟩,
   ⟨⟨by decide, by decide, rfl⟩,
     success_reports_702010.2.2.1 c5DRParams c5DROracle (by decide) (by decide) rfl⟩,
   ⟨⟨rfl, by decide⟩,
     success_reports_702010.2.2.2.1 ["q"] "" none c5SROracle c5SRResults rfl (by decide)⟩,
   ⟨⟨by decide, by decide, rfl⟩,
     success_reports_702010.2.2.2.2 c5RUrls "" "" 100 {} c5ROracle c5Batch
       (by decide) (by decide) rfl⟩⟩

-- ============================================================================
-- C6: web search aggregation and consensus count
-- ============================================================================

/-- C6: handleWebSearch aggregates the parallel query results by URL into
entries carrying their cross-query frequency and their position-weighted
score (positions 1-10 scored from the CTR weight table), ranks them by
descending score, and reports a consensus_url_count equal to the number of
ranked URLs whose frequency reaches the frequency threshold. -/
theorem web_search_consensus_ranking :
    ∀ (p : WebSearchParams) (o : WebSearchOracle) (resp : SearchResponse),
      o.searchMultiple = Except.ok resp →
      handleWebSearch p o = Except.ok (webSearchSuccess p resp)
      ∧ (webSearchSuccess p resp).metadata.consensus_url_count
          = some (((aggregateAndRank resp.searches 5).rankedUrls.filter
              (fun u => (aggregateAndRank resp.searches 5).frequencyThreshold ≤ u.frequency)).length)
      ∧ List.Sorted rankRel (aggregateAndRank resp.searches 5).rankedUrls
      ∧ (∀ u ∈ (aggregateAndRank resp.searches 5).rankedUrls,
          u.frequency = urlFrequency resp.searches u.url
          ∧ u.score = urlScore resp.searches u.url)
      ∧ (∀ pos : Int, 1 ≤ pos → pos ≤ 10 →
          getPositionScore pos = (CTR_WEIGHTS pos).getD 0) := by
  intro p o resp hs
  refine ⟨?_, rfl, ?_, ?_, ?_⟩
  · unfold handleWebSearch
    rw [hs]
    rfl
  · show List.Sorted rankRel
      (List.insertionSort rankRel
        ((uniqueUrls resp.searches).map
          (fun u => ⟨u, urlFrequency resp.searches u, urlScore resp.searches u⟩)))
    exact List.sorted_insertionSort rankRel _
  · intro u hu
    have hu2 : u ∈ List.insertionSort rankRel
        ((uniqueUrls resp.searches).map
          (fun url => RankedUrl.mk url (urlFrequency resp.searches url)
            (urlScore resp.searches url))) := hu
    have hu3 : u ∈ (uniqueUrls resp.searches).map
        (fun url => RankedUrl.mk url (urlFrequency resp.searches url)
          (urlScore resp.searches url)) :=
      (List.perm_insertionSort rankRel _).mem_iff.mp hu2
    rcases List.mem_map.mp hu3 with ⟨url, hurl, rfl⟩
    exact ⟨rfl, rfl⟩
  · intro pos h1 h2
    exact getPositionScore_table pos h1 h2

/-- Witness for C6 on a concrete two-query search response. -/
def c6SearchResp : SearchResponse :=
  { totalKeywords := 2
    searches :=
      [{ keyword := "k1"
         results := [{ title := "A", link := "https://a.example/" },
                     { title := "B", link := "https://b.example/" }] },
       { keyword := "k2"
         results := [{ title := "A2", link := "https://a.example/" }] }] }

def c6Oracle : WebSearchOracle := { searchMultiple := Except.ok c6SearchResp }

theorem web_search_consensus_ranking_witness :
    c6Oracle.searchMultiple = Except.ok c6SearchResp
    ∧ (handleWebSearch c5WebParams c6Oracle = Except.ok (webSearchSuccess c5WebParams c6SearchResp)
      ∧ (webSearchSuccess c5WebParams c6SearchResp).metadata.consensus_url_count
          = some (((aggregateAndRank c6SearchResp.searches 5).rankedUrls.filter
              (fun u => (aggregateAndRank c6SearchResp.searches 5).frequencyThreshold ≤ u.frequency)).length)
      ∧ List.Sorted rankRel (aggregateAndRank c6SearchResp.searches 5).rankedUrls
      ∧ (∀ u ∈ (aggregateAndRank c6SearchResp.searches 5).rankedUrls,
          u.frequency = urlFrequency c6SearchResp.searches u.url
          ∧ u.score = urlScore c6SearchResp.searches u.url)
      ∧ (∀ pos : Int, 1 ≤ pos → pos ≤ 10 →
          getPositionScore pos = (CTR_WEIGHTS pos).getD 0)) :=
  ⟨rfl, web_search_consensus_ranking c5WebParams c6Oracle c6SearchResp rfl⟩

-- ============================================================================
-- C7: bounded concurrency fan-out
-- ============================================================================

def drResults : DRStructured → Option (List QuestionResult)
  | DRStructured.ok _ _ _ _ _ results => some results
  | DRStructured.error _ => none

/-- C7: the bounded parallel map runs its tasks in waves of at most the
concurrency limit, so no more than 3 LLM/research calls are in flight for
the scrape_links LLM pass and deep_research (which map with limit 3), and
REDDIT.MAX_CONCURRENT bounds simultaneous Reddit fetches at 10. -/
theorem bounded_fanout :
    (∀ (l : List (String × String)) (f : (String × String) → (String × String)),
        pMap l f 3 = ((chunksOf 3 l).map (List.map f)).flatten)
    ∧ (∀ (questions : List DRQuestion) (o : ResearchOracle),
        drResults (deepResearchSuccess questions o).structuredContent
          = some (pMap questions
              (researchOne o (calculateTokenAllocation questions.length TOKEN_BUDGETS.RESEARCH)) 3))
    ∧ (∀ (l : List DRQuestion) (wave : List DRQuestion),
        wave ∈ chunksOf 3 l → wave.length ≤ 3)
    ∧ (∀ (l : List (String × String)) (wave : List (String × String)),
        wave ∈ chunksOf 3 l → wave.length ≤ 3)
    ∧ REDDIT.MAX_CONCURRENT = 10
    ∧ (∀ (l : List String) (wave : List String),
        wave ∈ chunksOf REDDIT.MAX_CONCURRENT l → wave.length ≤ 10) := by
  refine ⟨fun l f => rfl, fun questions o => rfl, ?_, ?_, rfl, ?_⟩
  · intro l wave hw
    exact length_le_of_mem_chunksOf (by decide) hw
  · intro l wave hw
    exact length_le_of_mem_chunksOf (by decide) hw
  · intro l wave hw
    exact length_le_of_mem_chunksOf (by decide) hw

/-- Witness for C7: a concrete wave of a 5-question batch. -/
theorem chunksOf_five : chunksOf 3 ([⟨"q1", []⟩, ⟨"q2", []⟩, ⟨"q3", []⟩, ⟨"q4", []⟩,
    ⟨"q5", []⟩] : List DRQuestion)
    = [[⟨"q1", []⟩, ⟨"q2", []⟩, ⟨"q3", []⟩], [⟨"q4", []⟩, ⟨"q5", []⟩]] := by
  rw [chunksOf]
  norm_num
  rw [chunksOf]
  norm_num
  rw [chunksOf]

theorem bounded_fanout_witness :
    ([⟨"q1", []⟩, ⟨"q2", []⟩, ⟨"q3", []⟩] : List DRQuestion) ∈
      chunksOf 3 ([⟨"q1", []⟩, ⟨"q2", []⟩, ⟨"q3", []⟩, ⟨"q4", []⟩, ⟨"q5", []⟩] : List DRQuestion)
    ∧ ([⟨"q1", []⟩, ⟨"q2", []⟩, ⟨"q3", []⟩] : List DRQuestion).length ≤ 3 :=
  ⟨by rw [chunksOf_five]; exact List.mem_cons_self _ _,
   bounded_fanout.2.2.1 _ _ (by rw [chunksOf_five]; exact List.mem_cons_self _ _)⟩

end ResearchPowerpack
